import Mathlib

/-!
Category feed store of the book-discovery client

A shallow embedding of `src/components/contexts/BookContext.js` (the `BookProvider`
component) together with the five paginated fetch functions of
`src/components/mongoDBService.js` that it calls, followed by the search logic of
`src/components/screens/SearchScreen.js`, the favorites store of
`src/components/contexts/FavoriteBooksContext.js`, the user profile store of
`src/components/contexts/UserContext.js`, the favorite toggle and the date formatting of
`src/components/screens/BookDetailScreen.js`, the de-duplication helper of
`src/components/screens/CalendarScreen.js`, the request configurations of the API client
and the start-up loader `src/components/initializeData.js`.

Modelling conventions.

* A React state cell becomes a field of `ProviderState`; a `setX(v)` call becomes a
  record update, applied in program order.  The load-more operations take two states:
  the state of the render they were created in, which their closure reads, and the
  state at the time their fetch resolves, which the functional updaters
  `setX((prev) => ...)` receive.  The two are the same for a call that no other update
  overlaps; the other operations are embedded for such a call.
* The remote backend is a parameter `Server`: it answers every request either with a
  page of books or with an error.
* An operation returns an `Outcome`: the next state, the ordered trace of requests and
  console messages it produced, and the error that escaped to its caller (if any).
* Offsets are JavaScript numbers that start at 20 and grow in steps of 20; they are
  modelled as natural numbers.
-/

namespace BookKeeps

/-- A book record as the client sees it.  Only `_id` is inspected by the feed store;
`title` stands for the remaining, uninterpreted content of the record. -/
structure Book where
  _id : String
  title : String
deriving DecidableEq, Repr

/-- The HTTP GET issued by one of the paginated fetch functions of `mongoDBService.js`:
the path below the server endpoint and the query parameters. -/
structure FeedRequest where
  path : String
  userId : Option (Option String)
  limit : Nat
  offset : Nat
deriving DecidableEq, Repr

/-- The remote backend: every request either resolves with a page or fails. -/
abbrev Server := FeedRequest → Except String (List Book)

/-- What an operation does besides changing state. -/
inductive Event where
  | request (r : FeedRequest)
  | log (msg : String)
deriving DecidableEq, Repr

/-- Result of awaiting one fetch function: the resolved page or the rethrown error,
and the trace left behind. -/
structure Fetched where
  result : Except String (List Book)
  events : List Event

/-- The `try { axios.get ...; return response.data } catch { console.error; throw }`
shape shared by the five fetch functions. -/
def fetchWith (server : Server) (req : FeedRequest) (msg : String) : Fetched :=
  match server req with
  | .ok data => { result := .ok data, events := [.request req] }
  | .error e => { result := .error e, events := [.request req, .log msg] }

/-- `fetchTrendingBooks(limit, offset)`. -/
def fetchTrendingBooks (server : Server) (limit offset : Nat) : Fetched :=
  fetchWith server
    { path := "/api/trending-books", userId := none, limit := limit, offset := offset }
    "Error fetching trending books:"

/-- `fetchRecommendedBooks(userId, limit, offset)`. -/
def fetchRecommendedBooks (server : Server) (userId : Option String) (limit offset : Nat) :
    Fetched :=
  fetchWith server
    { path := "/api/recommended-for-you", userId := some userId, limit := limit,
      offset := offset }
    "Error fetching recommended books:"

/-- `fetchBooksComingThisWeek(limit, offset)`. -/
def fetchBooksComingThisWeek (server : Server) (limit offset : Nat) : Fetched :=
  fetchWith server
    { path := "/api/books-coming-this-week", userId := none, limit := limit,
      offset := offset }
    "Error fetching books coming this week:"

/-- `fetchBooksComingNextMonth(limit, offset, userId)`. -/
def fetchBooksComingNextMonth (server : Server) (limit offset : Nat)
    (userId : Option String) : Fetched :=
  fetchWith server
    { path := "/api/books-coming-next-month", userId := some userId, limit := limit,
      offset := offset }
    "Error fetching books coming next month:"

/-- `fetchReleasedBooks(limit, offset, userId)`. -/
def fetchReleasedBooks (server : Server) (limit offset : Nat) (userId : Option String) :
    Fetched :=
  fetchWith server
    { path := "/api/books-already-released", userId := some userId, limit := limit,
      offset := offset }
    "Error fetching books coming this month:"

/-- A JavaScript `Set` of identifiers, kept in insertion order. -/
abbrev IdSet := List String

/-- `set.has(x)`. -/
def IdSet.has (s : IdSet) (x : String) : Bool := s.contains x

/-- `set.add(x)`. -/
def IdSet.add (s : IdSet) (x : String) : IdSet := if s.contains x then s else s ++ [x]

/-- The sixteen state cells of `BookProvider`. -/
structure ProviderState where
  recommendedBooks : List Book
  booksThisWeek : List Book
  booksNextMonth : List Book
  trendingBooks : List Book
  releasedBooks : List Book
  hasMoreRecommended : Bool
  hasMoreWeek : Bool
  hasMoreMonth : Bool
  hasMoreTrending : Bool
  hasMoreReleased : Bool
  recommendedOffset : Nat
  weekOffset : Nat
  monthOffset : Nat
  trendingOffset : Nat
  releasedOffset : Nat
  fetchedBookIds : IdSet
deriving DecidableEq, Repr

/-- The state of the first render: `useState(initialData.x || [])`, `useState(true)`,
`useState(20)`, `useState(new Set())`. -/
def initialState (recommended week month trending released : List Book) : ProviderState :=
  { recommendedBooks := recommended, booksThisWeek := week, booksNextMonth := month,
    trendingBooks := trending, releasedBooks := released,
    hasMoreRecommended := true, hasMoreWeek := true, hasMoreMonth := true,
    hasMoreTrending := true, hasMoreReleased := true,
    recommendedOffset := 20, weekOffset := 20, monthOffset := 20, trendingOffset := 20,
    releasedOffset := 20, fetchedBookIds := [] }

/-- What a call of a store operation leaves behind. -/
structure Outcome where
  state : ProviderState
  events : List Event
  raised : Option String

/-- `newBooks.filter((newBook) => !books.some((book) => book._id === newBook._id))`. -/
def filterNotIn (books newBooks : List Book) : List Book :=
  newBooks.filter fun newBook => !books.any fun book => book._id == newBook._id

/-- `filterOutDuplicateBooksGlobally(newBooks)`: the books whose identifier is not in
the seen-id set, and the state in which their identifiers have been added to it. -/
def filterOutDuplicateBooksGlobally (s : ProviderState) (newBooks : List Book) :
    List Book × ProviderState :=
  let uniqueBooks := newBooks.filter fun book => !s.fetchedBookIds.has book._id
  let updatedIds := uniqueBooks.foldl (fun ids book => IdSet.add ids book._id) s.fetchedBookIds
  (uniqueBooks, { s with fetchedBookIds := updatedIds })

/-- `refreshRecommendedBooks()`. -/
def refreshRecommendedBooks (userId : Option String) (server : Server) (s : ProviderState) :
    Outcome :=
  let f := fetchRecommendedBooks server userId 20 0
  match f.result with
  | .ok newBooks =>
    let (uniqueBooks, s1) := filterOutDuplicateBooksGlobally s newBooks
    let s2 := { s1 with recommendedBooks := uniqueBooks }
    let s3 := { s2 with recommendedOffset := 20 }
    let s4 := { s3 with hasMoreRecommended := decide (uniqueBooks.length = 20) }
    { state := s4, events := f.events, raised := none }
  | .error _ =>
    { state := s, events := f.events ++ [.log "Error refreshing recommended books:"],
      raised := none }

/-- `loadMoreRecommendedBooks()`, created in the render with state `render`, its fetch
resolving when the state is `s`: the guard, the offset requested and the filter read
the closure, the functional updaters are applied to the state of the time.  A call
that no other update overlaps has `render = s`. -/
def loadMoreRecommendedBooks (userId : Option String) (server : Server)
    (render s : ProviderState) : Outcome :=
  if !render.hasMoreRecommended then { state := s, events := [], raised := none } else
  let f := fetchRecommendedBooks server userId 20 render.recommendedOffset
  match f.result with
  | .ok newBooks =>
    let uniqueBooks := filterNotIn render.recommendedBooks newBooks
    let s1 := if newBooks.length < 20 then { s with hasMoreRecommended := false } else s
    let logs := if newBooks.length < 20 then [Event.log "No more books available."] else []
    let s2 := { s1 with recommendedBooks := s1.recommendedBooks ++ uniqueBooks }
    let s3 := { s2 with recommendedOffset := s2.recommendedOffset + 20 }
    { state := s3, events := f.events ++ logs, raised := none }
  | .error _ =>
    { state := s, events := f.events ++ [.log "Error loading more recommended books:"],
      raised := none }

/-- `loadMoreBooksThisWeek()`, created in the render with state `render`, its fetch
resolving when the state is `s`: the guard, the offset requested and the filter read
the closure, the functional updaters are applied to the state of the time.  A call
that no other update overlaps has `render = s`. -/
def loadMoreBooksThisWeek (server : Server) (render s : ProviderState) : Outcome :=
  if !render.hasMoreWeek then { state := s, events := [], raised := none } else
  let f := fetchBooksComingThisWeek server 20 render.weekOffset
  match f.result with
  | .ok newBooks =>
    let uniqueBooks := filterNotIn render.booksThisWeek newBooks
    let s1 := if newBooks.length < 20 then { s with hasMoreWeek := false } else s
    let logs := if newBooks.length < 20 then [Event.log "No more books available."] else []
    let s2 := { s1 with booksThisWeek := s1.booksThisWeek ++ uniqueBooks }
    let s3 := { s2 with hasMoreWeek := decide (uniqueBooks.length = 20) }
    { state := s3, events := f.events ++ logs, raised := none }
  | .error _ =>
    { state := s, events := f.events ++ [.log "Error loading more books for this week:"],
      raised := none }

/-- `loadMoreBooksNextMonth()`, created in the render with state `render`, its fetch
resolving when the state is `s`: the guard, the offset requested and the filter read
the closure, the functional updaters are applied to the state of the time.  A call
that no other update overlaps has `render = s`. -/
def loadMoreBooksNextMonth (userId : Option String) (server : Server)
    (render s : ProviderState) : Outcome :=
  if !render.hasMoreMonth then { state := s, events := [], raised := none } else
  let f := fetchBooksComingNextMonth server 20 render.monthOffset userId
  match f.result with
  | .ok newBooks =>
    let uniqueBooks := filterNotIn render.booksNextMonth newBooks
    let s1 := if newBooks.length < 20 then { s with hasMoreMonth := false } else s
    let logs := if newBooks.length < 20 then [Event.log "No more books available."] else []
    let s2 := { s1 with booksNextMonth := s1.booksNextMonth ++ uniqueBooks }
    let s3 := { s2 with monthOffset := s2.monthOffset + 20 }
    { state := s3, events := f.events ++ logs, raised := none }
  | .error _ =>
    { state := s, events := f.events ++ [.log "Error loading more books next month:"],
      raised := none }

/-- `loadMoreTrendingBooks()`, created in the render with state `render`, its fetch
resolving when the state is `s`: the guard, the offset requested and the filter read
the closure, the functional updaters are applied to the state of the time.  A call
that no other update overlaps has `render = s`. -/
def loadMoreTrendingBooks (server : Server) (render s : ProviderState) : Outcome :=
  if !render.hasMoreTrending then { state := s, events := [], raised := none } else
  let f := fetchTrendingBooks server 20 render.trendingOffset
  match f.result with
  | .ok newBooks =>
    let uniqueBooks := filterNotIn render.trendingBooks newBooks
    let s1 := if newBooks.length < 20 then { s with hasMoreTrending := false } else s
    let logs := if newBooks.length < 20 then [Event.log "No more books available."] else []
    let s2 := { s1 with trendingBooks := s1.trendingBooks ++ uniqueBooks }
    let s3 := { s2 with trendingOffset := s2.trendingOffset + 20 }
    { state := s3, events := f.events ++ logs, raised := none }
  | .error _ =>
    { state := s, events := f.events ++ [.log "Error loading more trending books:"],
      raised := none }

/-- `loadMoreReleasedBooks()`, created in the render with state `render`, its fetch
resolving when the state is `s`: the guard, the offset requested and the filter read
the closure, the functional updaters are applied to the state of the time.  A call
that no other update overlaps has `render = s`. -/
def loadMoreReleasedBooks (userId : Option String) (server : Server)
    (render s : ProviderState) : Outcome :=
  if !render.hasMoreReleased then { state := s, events := [], raised := none } else
  let f := fetchReleasedBooks server 20 render.releasedOffset userId
  match f.result with
  | .ok newBooks =>
    let uniqueBooks := filterNotIn render.releasedBooks newBooks
    let s1 := if newBooks.length < 20 then { s with hasMoreReleased := false } else s
    let logs := if newBooks.length < 20 then [Event.log "No more books available."] else []
    let s2 := { s1 with releasedBooks := s1.releasedBooks ++ uniqueBooks }
    let s3 := { s2 with releasedOffset := s2.releasedOffset + 20 }
    { state := s3, events := f.events ++ logs, raised := none }
  | .error _ =>
    { state := s, events := f.events ++ [.log "Error loading more released books:"],
      raised := none }

/-! ### The five feeds, uniformly -/

/-- The five category feeds held by `BookProvider`. -/
inductive Category where
  | recommended
  | thisWeek
  | nextMonth
  | trending
  | released
deriving DecidableEq, Repr

/-- The sequence of books of a feed. -/
def books : Category → ProviderState → List Book
  | .recommended, s => s.recommendedBooks
  | .thisWeek, s => s.booksThisWeek
  | .nextMonth, s => s.booksNextMonth
  | .trending, s => s.trendingBooks
  | .released, s => s.releasedBooks

/-- The has-more flag of a feed. -/
def hasMore : Category → ProviderState → Bool
  | .recommended, s => s.hasMoreRecommended
  | .thisWeek, s => s.hasMoreWeek
  | .nextMonth, s => s.hasMoreMonth
  | .trending, s => s.hasMoreTrending
  | .released, s => s.hasMoreReleased

/-- The offset cell of a feed. -/
def offset : Category → ProviderState → Nat
  | .recommended, s => s.recommendedOffset
  | .thisWeek, s => s.weekOffset
  | .nextMonth, s => s.monthOffset
  | .trending, s => s.trendingOffset
  | .released, s => s.releasedOffset

/-- The load-more operation that `BookProvider` exports for a feed, created in the
render with state `render` and resolving on the state `s`. -/
def loadMoreOn (cat : Category) (userId : Option String) (server : Server)
    (render s : ProviderState) : Outcome :=
  match cat with
  | .recommended => loadMoreRecommendedBooks userId server render s
  | .thisWeek => loadMoreBooksThisWeek server render s
  | .nextMonth => loadMoreBooksNextMonth userId server render s
  | .trending => loadMoreTrendingBooks server render s
  | .released => loadMoreReleasedBooks userId server render s

/-- A load-more call that no other update overlaps: it resolves on the state of the
render it was created in. -/
def loadMore (cat : Category) (userId : Option String) (server : Server)
    (s : ProviderState) : Outcome :=
  loadMoreOn cat userId server s s

/-- The request a feed's load-more sends when its has-more flag is set: limit 20 at the
feed's current offset. -/
def loadMoreRequest (cat : Category) (userId : Option String) (s : ProviderState) :
    FeedRequest :=
  match cat with
  | .recommended =>
    { path := "/api/recommended-for-you", userId := some userId, limit := 20,
      offset := s.recommendedOffset }
  | .thisWeek =>
    { path := "/api/books-coming-this-week", userId := none, limit := 20,
      offset := s.weekOffset }
  | .nextMonth =>
    { path := "/api/books-coming-next-month", userId := some userId, limit := 20,
      offset := s.monthOffset }
  | .trending =>
    { path := "/api/trending-books", userId := none, limit := 20,
      offset := s.trendingOffset }
  | .released =>
    { path := "/api/books-already-released", userId := some userId, limit := 20,
      offset := s.releasedOffset }

/-- The request sent by `refreshRecommendedBooks`: the first page of 20. -/
def refreshRequest (userId : Option String) : FeedRequest :=
  { path := "/api/recommended-for-you", userId := some userId, limit := 20, offset := 0 }

/-- A run of load-more calls, each on some feed, with the user identifier of the time
and answered by the backend as it is at the time of the call. -/
def runLoadMores (calls : List (Category × Option String × Server))
    (s : ProviderState) : ProviderState :=
  calls.foldl (fun st call => (loadMore call.1 call.2.1 call.2.2 st).state) s

/-- The identifiers of a sequence of books, in order. -/
def ids (bs : List Book) : List String := bs.map fun b => b._id

/-- The books of page `p` whose identifier does not occur in `existing`, in the order
of `p`. -/
def survivors (existing p : List Book) : List Book :=
  p.filter fun b => decide (b._id ∉ ids existing)

/-! ### Sample data -/

/-- A book whose identifier is `n + 1` letters long, so that different `n` give
different identifiers. -/
def sampleBook (n : Nat) : Book :=
  { _id := String.mk (List.replicate (n + 1) 'b'), title := "" }

/-- Sample books number `lo`, `lo + 1`, ..., `lo + n - 1`. -/
def samplePage (lo n : Nat) : List Book := (List.range n).map fun i => sampleBook (lo + i)

/-- A backend that answers every request with the page `p`. -/
def serverReturning (p : List Book) : Server := fun _ => .ok p

/-- A backend on which every request fails. -/
def serverFailing : Server := fun _ => .error "Network Error"

/-! ### The rest of the API client

The requests of `mongoDBService.js` used by the search screen, the favorites store and
the user profile store.  The lodash `debounce` wrapper of the search screen is not
executed here: a call of the debounced function is recorded as an effect, and the
wrapped function is a definition of its own that runs when the debounce fires. -/

/-- An author record; only `_id` is inspected by the stores, `name` stands for the
rest of the record. -/
structure Author where
  _id : String
  name : String
deriving DecidableEq, Repr

/-- The HTTP requests of the API client besides the five feed fetches, each with the
parameters or body it carries. -/
inductive ApiRequest where
  | search (query : String) (limit offset : Nat) (searchType : String)
  | saveFavorite (userId : Option String) (bookId : String)
  | booksByIds (bookIds : List String)
  | deleteFavorite (id : String)
  | patchUser (userId : Option String) (favoriteGenres favoriteAuthors : List String)
  | authorsByIds (authorIds : String)
deriving DecidableEq, Repr

/-- The backend's answer to each of those requests: a payload or a failure. -/
structure Api where
  search : String → Nat → Nat → String → Except String (List Book)
  saveFavorite : Option String → String → Except String String
  booksByIds : List String → Except String (List Book)
  deleteFavorite : String → Except String Unit
  patchUser : Option String → List String → List String → Except String Unit
  authorsByIds : String → Except String (List Author)

/-- What a store operation does besides changing state: a request sent, a console
message, or a call of the debounced `performSearch` (created for `searchType`) with
`query`. -/
inductive Effect where
  | request (r : ApiRequest)
  | log (msg : String)
  | debounced (query searchType : String)
deriving DecidableEq, Repr

/-- Result of awaiting a function of the API client: the value it resolved with or the
error it threw, and the effects it produced. -/
structure Called (α : Type) where
  result : Except String α
  effects : List Effect

/-- What a call of a store operation leaves behind: the next state, the effects, and
the error that escaped to the caller, if any. -/
structure StoreOutcome (σ : Type) where
  state : σ
  effects : List Effect
  raised : Option String

/-- `searchBooks(query, limit, offset, searchType)`. -/
def searchBooks (api : Api) (query : String) (limit offset : Nat) (searchType : String) :
    Called (List Book) :=
  match api.search query limit offset searchType with
  | .ok data =>
    { result := .ok data, effects := [.request (.search query limit offset searchType)] }
  | .error e =>
    { result := .error e,
      effects := [.request (.search query limit offset searchType),
                  .log "Error searching books:"] }

/-- `saveFavoritedBook(userId, bookId)`: resolves with the response body, the favorite
identifier issued by the server. -/
def saveFavoritedBook (api : Api) (userId : Option String) (bookId : String) :
    Called String :=
  match api.saveFavorite userId bookId with
  | .ok data => { result := .ok data, effects := [.request (.saveFavorite userId bookId)] }
  | .error e =>
    { result := .error e,
      effects := [.request (.saveFavorite userId bookId),
                  .log "Error saving favorited book:"] }

/-- `removeFavoritedBook(id)`. -/
def removeFavoritedBook (api : Api) (id : String) : Called Unit :=
  match api.deleteFavorite id with
  | .ok data => { result := .ok data, effects := [.request (.deleteFavorite id)] }
  | .error e =>
    { result := .error e,
      effects := [.request (.deleteFavorite id), .log "Error removing favorited book:"] }

/-- `updateFavoritesInDB(userId, favoriteGenres, favoriteAuthors)`. -/
def updateFavoritesInDB (api : Api) (userId : Option String)
    (favoriteGenres favoriteAuthors : List String) : Called Unit :=
  match api.patchUser userId favoriteGenres favoriteAuthors with
  | .ok _ =>
    { result := .ok (), effects := [.request (.patchUser userId favoriteGenres favoriteAuthors)] }
  | .error e =>
    { result := .error e,
      effects := [.request (.patchUser userId favoriteGenres favoriteAuthors),
                  .log "Failed to update profile:"] }

/-- `getBooksByIds(bookIds)`; the argument `none` stands for a value that is not an
array.  The guard throws inside the `try`, so both the guard and a failed request end
in the `catch`, which logs and returns the empty array. -/
def getBooksByIds (api : Api) (bookIds : Option (List String)) : Called (List Book) :=
  match bookIds with
  | none => { result := .ok [], effects := [.log "Error fetching books by IDs:"] }
  | some l =>
    if l.length = 0 then { result := .ok [], effects := [.log "Error fetching books by IDs:"] }
    else
      match api.booksByIds l with
      | .ok data => { result := .ok data, effects := [.request (.booksByIds l)] }
      | .error _ =>
        { result := .ok [],
          effects := [.request (.booksByIds l), .log "Error fetching books by IDs:"] }

/-- `getAuthorsByIds(authorIds)`: the identifiers travel joined by commas; a failed
request is logged and answered with the empty array. -/
def getAuthorsByIds (api : Api) (authorIds : List String) : Called (List Author) :=
  match api.authorsByIds (String.intercalate "," authorIds) with
  | .ok data =>
    { result := .ok data,
      effects := [.request (.authorsByIds (String.intercalate "," authorIds))] }
  | .error _ =>
    { result := .ok [],
      effects := [.request (.authorsByIds (String.intercalate "," authorIds)),
                  .log "Error fetching authors by IDs:"] }

/-! ### Favorites store (`FavoriteBooksContext.js`) -/

/-- An entry of `favoritedBooks`: a book record spread together with the favorite
identifier, `{ ...book, favoritedId }`. -/
structure FavoritedBook extends Book where
  favoritedId : String
deriving DecidableEq, Repr

/-- `addFavoritedBook(userId, bookId)` on the favorites sequence `favoritedBooks`. -/
def addFavoritedBook (api : Api) (userId : Option String) (bookId : String)
    (favoritedBooks : List FavoritedBook) : StoreOutcome (List FavoritedBook) :=
  let saved := saveFavoritedBook api userId bookId
  match saved.result with
  | .error _ =>
    { state := favoritedBooks,
      effects := saved.effects ++ [.log "Error adding favorited book:"], raised := none }
  | .ok favoritedId =>
    let looked := getBooksByIds api (some [bookId])
    match looked.result with
    | .error _ =>
      { state := favoritedBooks,
        effects := saved.effects ++ looked.effects ++ [.log "Error adding favorited book:"],
        raised := none }
    | .ok bookDetails =>
      match bookDetails with
      | [] =>
        { state := favoritedBooks, effects := saved.effects ++ looked.effects,
          raised := none }
      | first :: _ =>
        let newFavorite : FavoritedBook := { toBook := first, favoritedId := favoritedId }
        { state := favoritedBooks ++ [newFavorite],
          effects := saved.effects ++ looked.effects, raised := none }

/-- `removeFavoritedBookFromState(favoriteId)` on the favorites sequence. -/
def removeFavoritedBookFromState (api : Api) (favoriteId : String)
    (favoritedBooks : List FavoritedBook) : StoreOutcome (List FavoritedBook) :=
  let removed := removeFavoritedBook api favoriteId
  match removed.result with
  | .ok _ =>
    { state := favoritedBooks.filter fun book => book.favoritedId != favoriteId,
      effects := removed.effects, raised := none }
  | .error _ =>
    { state := favoritedBooks,
      effects := removed.effects ++ [.log "Error removing favorited book:"],
      raised := none }

/-! ### User profile store (`UserContext.js`) -/

/-- The four state cells of `UserProvider`. -/
structure UserState where
  userId : Option String
  favoriteGenres : List String
  favoriteAuthors : List Author
  genres : List String
deriving DecidableEq, Repr

/-- `updateFavoriteGenres(genres)`. -/
def updateFavoriteGenres (api : Api) (genres : List String) (s : UserState) :
    StoreOutcome UserState :=
  let updated := updateFavoritesInDB api s.userId genres (s.favoriteAuthors.map fun a => a._id)
  match updated.result with
  | .ok _ =>
    { state := { s with favoriteGenres := genres }, effects := updated.effects,
      raised := none }
  | .error _ =>
    { state := s, effects := updated.effects ++ [.log "Failed to update favorite genres:"],
      raised := none }

/-- `updateFavoriteAuthors(authorIds)`. -/
def updateFavoriteAuthors (api : Api) (authorIds : List String) (s : UserState) :
    StoreOutcome UserState :=
  let updated := updateFavoritesInDB api s.userId s.favoriteGenres authorIds
  match updated.result with
  | .ok _ =>
    if authorIds.length > 0 then
      let looked := getAuthorsByIds api authorIds
      match looked.result with
      | .ok updatedAuthors =>
        { state := { s with favoriteAuthors := updatedAuthors },
          effects := updated.effects ++ looked.effects, raised := none }
      | .error _ =>
        { state := s,
          effects := updated.effects ++ looked.effects
            ++ [.log "Failed to update favorite authors:"],
          raised := none }
    else
      { state := { s with favoriteAuthors := [] }, effects := updated.effects,
        raised := none }
  | .error _ =>
    { state := s, effects := updated.effects ++ [.log "Failed to update favorite authors:"],
      raised := none }

/-! ### Search screen (`SearchScreen.js`) -/

/-- JavaScript's `WhiteSpace` and `LineTerminator` code points, the ones `trim` strips. -/
def jsIsWhiteSpace (c : Char) : Bool :=
  let n := c.toNat
  n == 0x09 || n == 0x0A || n == 0x0B || n == 0x0C || n == 0x0D || n == 0x20 ||
  n == 0xA0 || n == 0x1680 || (0x2000 ≤ n && n ≤ 0x200A) || n == 0x2028 ||
  n == 0x2029 || n == 0x202F || n == 0x205F || n == 0x3000 || n == 0xFEFF

/-- `s.trim()`. -/
def jsTrim (s : String) : String :=
  String.mk ((s.toList.dropWhile jsIsWhiteSpace).reverse.dropWhile jsIsWhiteSpace).reverse

/-- `s.length`: the number of UTF-16 code units, two for a code point above U+FFFF. -/
def jsLength (s : String) : Nat :=
  (s.toList.map fun c => if c.toNat < 0x10000 then 1 else 2).sum

/-- The state cells of `SearchScreen` that the search logic reads or writes (the
sub-category sheet and the input ref are presentation only). -/
structure SearchState where
  searchQuery : String
  searchType : String
  searchResults : List Book
  isLoading : Bool
  isLoadingMore : Bool
  page : Nat
  hasMoreResults : Bool
deriving DecidableEq, Repr

/-- `new Set(array)`. -/
def IdSet.ofList (l : List String) : IdSet := l.foldl IdSet.add []

/-- `filterDuplicates(newResults, existingResults)`. -/
def filterDuplicates (newResults existingResults : List Book) : List Book :=
  let existingIds := IdSet.ofList (existingResults.map fun book => book._id)
  newResults.filter fun book => !existingIds.has book._id

/-- The function that `performSearch` wraps in `debounce(..., 500)`, closed over
`searchType`; it runs with `query` when the debounce fires. -/
def performSearchNow (searchType : String) (api : Api) (query : String) (s : SearchState) :
    StoreOutcome SearchState :=
  if jsLength (jsTrim query) < 3 then
    { state := { s with searchResults := [], hasMoreResults := false }, effects := [],
      raised := none }
  else
    let s1 := { s with isLoading := true }
    let found := searchBooks api query 20 0 searchType
    match found.result with
    | .ok results =>
      let uniqueResults := filterDuplicates results []
      let s2 := { s1 with searchResults := uniqueResults }
      let s3 := { s2 with hasMoreResults := decide (uniqueResults.length = 20) }
      let s4 := { s3 with page := 1 }
      { state := { s4 with isLoading := false }, effects := found.effects, raised := none }
    | .error _ =>
      { state := { s1 with isLoading := false },
        effects := found.effects ++ [.log "Error searching books:"], raised := none }

/-- `loadMoreResults()`. -/
def loadMoreResults (api : Api) (s : SearchState) : StoreOutcome SearchState :=
  if !s.hasMoreResults || s.isLoadingMore then { state := s, effects := [], raised := none }
  else
    let s1 := { s with isLoadingMore := true }
    let found := searchBooks api s.searchQuery 20 (s.page * 20) s.searchType
    match found.result with
    | .ok results =>
      let uniqueResults := filterDuplicates results s.searchResults
      let s2 := { s1 with searchResults := s1.searchResults ++ uniqueResults }
      let s3 := { s2 with hasMoreResults := decide (uniqueResults.length = 20) }
      let s4 := { s3 with page := s3.page + 1 }
      { state := { s4 with isLoadingMore := false }, effects := found.effects,
        raised := none }
    | .error _ =>
      { state := { s1 with isLoadingMore := false },
        effects := found.effects ++ [.log "Error loading more books:"], raised := none }

/-- The effect that runs when `searchQuery` changes: it hands the query to the
debounced `performSearch`, or clears the results. -/
def onSearchQueryChange (s : SearchState) : StoreOutcome SearchState :=
  if jsLength (jsTrim s.searchQuery) ≥ 3 then
    { state := s, effects := [.debounced s.searchQuery s.searchType], raised := none }
  else
    { state := { s with searchResults := [], hasMoreResults := false }, effects := [],
      raised := none }

/-! ### Sample data for the stores -/

/-- A backend on which every request succeeds: searches and book lookups return `page`,
saving a favorite returns `favId`, author lookups return `authors`. -/
def apiReturning (page : List Book) (favId : String) (authors : List Author) : Api :=
  { search := fun _ _ _ _ => .ok page
    saveFavorite := fun _ _ => .ok favId
    booksByIds := fun _ => .ok page
    deleteFavorite := fun _ => .ok ()
    patchUser := fun _ _ _ => .ok ()
    authorsByIds := fun _ => .ok authors }

/-- A backend on which every request fails. -/
def apiFailing : Api :=
  { search := fun _ _ _ _ => .error "Network Error"
    saveFavorite := fun _ _ => .error "Network Error"
    booksByIds := fun _ => .error "Network Error"
    deleteFavorite := fun _ => .error "Network Error"
    patchUser := fun _ _ _ => .error "Network Error"
    authorsByIds := fun _ => .error "Network Error" }

/-- A search screen showing `results` for `query`, nothing in flight, next page 1. -/
def searchStateWith (query : String) (results : List Book) : SearchState :=
  { searchQuery := query, searchType := "general", searchResults := results,
    isLoading := false, isLoadingMore := false, page := 1, hasMoreResults := true }

/-- Whether an awaited backend answer was a success. -/
def succeeded {α : Type} : Except String α → Bool
  | .ok _ => true
  | .error _ => false

/-- The requests among a list of effects, in order. -/
def requestsOf (effects : List Effect) : List ApiRequest :=
  effects.filterMap fun e =>
    match e with
    | .request r => some r
    | _ => none

/-- The favorite identifiers carried by a favorites sequence, in order. -/
def favoritedIds (favs : List FavoritedBook) : List String := favs.map fun r => r.favoritedId

/-- A favorites entry made of sample book `n` and the favorite identifier `fid`. -/
def sampleFavorite (n : Nat) (fid : String) : FavoritedBook :=
  { toBook := sampleBook n, favoritedId := fid }

/-- A user profile with one favorite genre and two favorite authors. -/
def sampleUser : UserState :=
  { userId := some "u1", favoriteGenres := ["Fantasy"],
    favoriteAuthors := [{ _id := "a1", name := "Ann" }, { _id := "a2", name := "Bob" }],
    genres := ["Fantasy", "Crime", "History"] }

/-- A backend on which every request succeeds except the author lookup, which fails. -/
def apiAuthorLookupFailing : Api :=
  { apiReturning [] "f1" [] with authorsByIds := fun _ => .error "Network Error" }

/-! ### Favorite toggle of the book detail screen (`BookDetailScreen.js`) -/

/-- The two state cells of `BookDetailScreen` that `handleFavoriteToggle` reads and
writes. -/
structure DetailState where
  isFavorited : Bool
  debouncing : Bool
deriving DecidableEq, Repr

/-- What a call of `handleFavoriteToggle` leaves behind: the screen state, the favorites
sequence of the store, the effects, and the error that escaped, if any. -/
structure ToggleOutcome where
  screen : DetailState
  favoritedBooks : List FavoritedBook
  effects : List Effect
  raised : Option String

/-- `handleFavoriteToggle()` for the screen showing `book`.  The `catch` block runs when
the awaited store operation raises. -/
def handleFavoriteToggle (api : Api) (userId : Option String) (book : Book)
    (favoritedBooks : List FavoritedBook) (st : DetailState) : ToggleOutcome :=
  if st.debouncing then
    { screen := st, favoritedBooks := favoritedBooks, effects := [], raised := none }
  else
    let st1 := { st with debouncing := true }
    let originalState := st.isFavorited
    let st2 := { st1 with isFavorited := !st.isFavorited }
    let awaited : StoreOutcome (List FavoritedBook) :=
      if originalState then
        match favoritedBooks.find? fun fav => fav._id == book._id with
        | some favoriteBook =>
          removeFavoritedBookFromState api favoriteBook.favoritedId favoritedBooks
        | none => { state := favoritedBooks, effects := [], raised := none }
      else addFavoritedBook api userId book._id favoritedBooks
    match awaited.raised with
    | some _ =>
      let st3 := { st2 with isFavorited := originalState }
      { screen := { st3 with debouncing := false }, favoritedBooks := awaited.state,
        effects := awaited.effects ++ [.log "Error toggling favorite status:"],
        raised := none }
    | none =>
      { screen := { st2 with debouncing := false }, favoritedBooks := awaited.state,
        effects := awaited.effects, raised := none }

/-! ### Request configurations of the API client (`mongoDBService.js`) -/

/-- The part of an axios request configuration that the client sets: the names of the
query parameters, the headers, and the timeout in milliseconds when one is given. -/
structure AxiosConfig where
  params : List String
  headers : List (String × String)
  timeout : Option Nat
deriving DecidableEq, Repr

/-- `getAxiosConfig()`; `apiKey` stands for the constant `MONGODB_API_KEY` of the
environment file, which is not part of the sources. -/
def getAxiosConfig (apiKey : String) : AxiosConfig :=
  { params := [],
    headers := [("Content-Type", "application/json"), ("api-key", apiKey)],
    timeout := some 30000 }

/-- The exported functions of `mongoDBService.js`, each of which sends one request. -/
inductive ClientFunction where
  | loginWithDeviceId
  | searchBooks
  | fetchTrendingBooks
  | fetchRecommendedBooks
  | fetchBooksComingThisWeek
  | fetchBooksComingNextMonth
  | fetchReleasedBooks
  | fetchUserData
  | updateFavoritesInDB
  | getBooksByIds
  | getFavoritedBooks
  | saveFavoritedBook
  | removeFavoritedBook
  | getGenres
  | searchAuthorsByName
  | getAuthorsByIds
  | sendFeedbackToMongoDB
deriving DecidableEq, Repr

/-- The configuration object that each function writes out in its axios call. -/
def requestConfig (apiKey : String) (f : ClientFunction) : AxiosConfig :=
  let headers := [("api-key", apiKey), ("Content-Type", "application/json")]
  match f with
  | .loginWithDeviceId => { params := [], headers := headers, timeout := none }
  | .searchBooks =>
    { params := ["query", "limit", "offset", "searchType"], headers := headers,
      timeout := none }
  | .fetchTrendingBooks =>
    { params := ["limit", "offset"], headers := headers, timeout := none }
  | .fetchRecommendedBooks =>
    { params := ["userId", "limit", "offset"], headers := headers, timeout := none }
  | .fetchBooksComingThisWeek =>
    { params := ["limit", "offset"], headers := headers, timeout := none }
  | .fetchBooksComingNextMonth =>
    { params := ["limit", "offset", "userId"], headers := headers, timeout := none }
  | .fetchReleasedBooks =>
    { params := ["limit", "offset", "userId"], headers := headers, timeout := none }
  | .fetchUserData => { params := [], headers := headers, timeout := none }
  | .updateFavoritesInDB => { params := [], headers := headers, timeout := none }
  | .getBooksByIds => { params := [], headers := headers, timeout := none }
  | .getFavoritedBooks => { params := [], headers := headers, timeout := none }
  | .saveFavoritedBook => { params := [], headers := headers, timeout := none }
  | .removeFavoritedBook => { params := [], headers := headers, timeout := none }
  | .getGenres => { params := [], headers := headers, timeout := none }
  | .searchAuthorsByName => { params := ["query", "limit"], headers := headers, timeout := none }
  | .getAuthorsByIds => { params := ["authorIds"], headers := headers, timeout := none }
  | .sendFeedbackToMongoDB => { params := [], headers := headers, timeout := none }

/-! ### De-duplication of the calendar screen (`CalendarScreen.js`) -/

/-- `map.set(k, v)` on a JavaScript `Map`, kept as its entries in insertion order: an
existing key keeps its place and takes the new value, a new key goes to the end. -/
def jsMapSet {κ α : Type} [DecidableEq κ] (m : List (κ × α)) (k : κ) (v : α) :
    List (κ × α) :=
  if m.any (fun e => decide (e.1 = k)) then m.map fun e => if e.1 = k then (k, v) else e
  else m ++ [(k, v)]

/-- `new Map(entries)`. -/
def jsMapOfEntries {κ α : Type} [DecidableEq κ] (entries : List (κ × α)) : List (κ × α) :=
  entries.foldl (fun m e => jsMapSet m e.1 e.2) []

/-- `removeDuplicates(arr, key)`, that is
`[...new Map(arr.map(item => [item[key], item])).values()]`; the function `key` reads
the key field of an item. -/
def removeDuplicates {κ α : Type} [DecidableEq κ] (arr : List α) (key : α → κ) : List α :=
  (jsMapOfEntries (arr.map fun item => (key item, item))).map fun e => e.2

/-- A calendar item: a favorite with an identifier and a title. -/
def sampleItems : List (String × String) :=
  [("b1", "first copy"), ("b2", "other book"), ("b1", "second copy")]

/-! ### Date formatting of the book detail screen (`BookDetailScreen.js`) -/

/-- The array `monthNames`. -/
def monthNames : List String :=
  ["January", "February", "March", "April", "May", "June", "July", "August",
   "September", "October", "November", "December"]

/-- `s.split(sep)` for a separator of one character, on the characters of `s`. -/
def jsSplit (sep : Char) : List Char → List (List Char)
  | [] => [[]]
  | c :: cs =>
    if c = sep then [] :: jsSplit sep cs
    else
      match jsSplit sep cs with
      | [] => [[c]]
      | h :: t => (c :: h) :: t

/-- `parseInt(s, 10)`, where `none` as argument stands for `undefined` and `none` as
result for `NaN`: leading white space is skipped, one sign is read, and the longest run
of decimal digits is taken.  The value is exact in JavaScript as long as it is below
2^53; longer digit runs are outside this model. -/
def parseInt (s : Option (List Char)) : Option Int :=
  match s with
  | none => none
  | some cs =>
    let t := cs.dropWhile jsIsWhiteSpace
    let negative := t.head? == some '-'
    let u :=
      match t with
      | '-' :: r => r
      | '+' :: r => r
      | _ => t
    let digits := u.takeWhile Char.isDigit
    if digits.isEmpty then none
    else
      let v : Nat := digits.foldl (fun acc c => 10 * acc + (c.toNat - 48)) 0
      some (if negative then -(v : Int) else (v : Int))

/-- `arr[i]` for an array of strings and a number `i` (`none` for `NaN`); the result
`none` stands for `undefined`. -/
def jsIndex (arr : List String) (i : Option Int) : Option String :=
  match i with
  | some (Int.ofNat n) => arr[n]?
  | _ => none

/-- `formatDate(dateString)` of `BookDetailScreen`; the argument `none` stands for a
missing date (`undefined` or `null`). -/
def formatDate (dateString : Option String) : String :=
  match dateString with
  | none => "Invalid Date"
  | some s =>
    if s = "" then "Invalid Date"
    else
      let parts := jsSplit '-' ((jsSplit 'T' s.toList).headD [])
      let year := parts[0]?
      let month := parts[1]?
      let day := parts[2]?
      let monthText :=
        match jsIndex monthNames ((parseInt month).map fun m => m - 1) with
        | some name => name
        | none => "undefined"
      let dayText :=
        match parseInt day with
        | some d => toString d
        | none => "NaN"
      let yearText :=
        match year with
        | some y => String.mk y
        | none => "undefined"
      monthText ++ " " ++ dayText ++ ", " ++ yearText

/-- The decimal digit character of `n % 10`. -/
def digitChar (n : Nat) : Char := Char.ofNat (48 + n % 10)

/-- The two-digit rendering `MM` or `DD` of a number below 100. -/
def pad2 (n : Nat) : List Char := [digitChar (n / 10), digitChar n]

/-- The four-digit rendering `YYYY` of a number below 10000. -/
def pad4 (n : Nat) : List Char :=
  [digitChar (n / 1000), digitChar (n / 100), digitChar (n / 10), digitChar n]

/-- The characters of the date `YYYY-MM-DD`. -/
def isoDate (year month day : Nat) : List Char :=
  pad4 year ++ ('-' :: (pad2 month ++ ('-' :: pad2 day)))

/-! ### Start-up loading (`initializeData.js`) -/

/-- A favorite record as the favorites endpoint returns it. -/
structure FavoriteRecord where
  _id : String
  userId : String
  bookId : String
deriving DecidableEq, Repr

/-- The user record; `initializeData` reads `favoriteAuthors`, the list of author
identifiers. -/
structure UserData where
  _id : String
  favoriteGenres : List String
  favoriteAuthors : List String
deriving DecidableEq, Repr

/-- The backend as `initializeData` sees it: the user, genre and favorites endpoints
next to the ones modelled above. -/
structure InitBackend where
  user : String → Except String UserData
  genres : Except String (List String)
  favorites : String → Except String (List FavoriteRecord)
  api : Api
  feeds : Server

/-- The object `initializeData` resolves with. -/
structure InitialData where
  userData : UserData
  favoritedBooks : List FavoritedBook
  recommendedBooks : List Book
  booksThisWeek : List Book
  booksNextMonth : List Book
  trendingBooks : List Book
  releasedBooks : List Book
  genres : List String
  favoriteAuthors : List Author
deriving DecidableEq, Repr

/-- `getFavoritedBooks(userId)`: the response body, or the empty array when the request
fails. -/
def getFavoritedBooks (b : InitBackend) (userId : String) : List FavoriteRecord :=
  match b.favorites userId with
  | .ok data => data
  | .error _ => []

/-- The pairing `books.map(book => { const fav = response.find(fav => fav.bookId ===
book._id); return { ...book, favoritedId: fav._id }; })`.  Reading `_id` of the
`undefined` that `find` returns for a book without a record throws a `TypeError`, which
ends the whole `map`. -/
def pairFavorites (response : List FavoriteRecord) :
    List Book → Except String (List FavoritedBook)
  | [] => .ok []
  | book :: rest =>
    match response.find? fun fav => fav.bookId == book._id with
    | none => .error "TypeError: cannot read property _id of undefined"
    | some fav =>
      match pairFavorites response rest with
      | .error e => .error e
      | .ok paired => .ok ({ toBook := book, favoritedId := fav._id } :: paired)

/-- `initializeData(userId)`: the outer `catch` logs and rethrows, so the first error is
the error of the whole call. -/
def initializeData (b : InitBackend) (userId : String) : Except String InitialData :=
  match b.user userId with
  | .error e => .error e
  | .ok userData =>
    match (if userData.favoriteAuthors.length > 0
        then (getAuthorsByIds b.api userData.favoriteAuthors).result else .ok []) with
    | .error e => .error e
    | .ok favoriteAuthors =>
      match b.genres with
      | .error e => .error e
      | .ok genres =>
        let response := getFavoritedBooks b userId
        let favoritedBooksIds := response.map fun fav => fav.bookId
        match (if favoritedBooksIds.length > 0
            then (getBooksByIds b.api (some favoritedBooksIds)).result else .ok []) with
        | .error e => .error e
        | .ok books =>
          match pairFavorites response books with
          | .error e => .error e
          | .ok favoritedBooks =>
            match (fetchRecommendedBooks b.feeds (some userId) 20 0).result with
            | .error e => .error e
            | .ok recommendedBooks =>
              match (fetchReleasedBooks b.feeds 20 0 (some userId)).result with
              | .error e => .error e
              | .ok releasedBooks =>
                match (fetchBooksComingThisWeek b.feeds 20 0).result with
                | .error e => .error e
                | .ok booksThisWeek =>
                  match (fetchBooksComingNextMonth b.feeds 20 0 (some userId)).result with
                  | .error e => .error e
                  | .ok booksNextMonth =>
                    match (fetchTrendingBooks b.feeds 20 0).result with
                    | .error e => .error e
                    | .ok trendingBooks =>
                      .ok { userData := userData, favoritedBooks := favoritedBooks,
                            recommendedBooks := recommendedBooks,
                            booksThisWeek := booksThisWeek,
                            booksNextMonth := booksNextMonth,
                            trendingBooks := trendingBooks,
                            releasedBooks := releasedBooks, genres := genres,
                            favoriteAuthors := favoriteAuthors }

/-- A backend for start-up on which every request succeeds: the user has no favorite
authors, the favorites endpoint answers `response`, the book lookup answers `lookedUp`
and every feed answers `page`. -/
def initBackendReturning (response : List FavoriteRecord) (lookedUp page : List Book) :
    InitBackend :=
  { user := fun uid => .ok { _id := uid, favoriteGenres := [], favoriteAuthors := [] }
    genres := .ok ["Fantasy"]
    favorites := fun _ => .ok response
    api := apiReturning lookedUp "f1" []
    feeds := serverReturning page }

/-- Two favorite records of user `u1` for sample book 0 (an older and a newer one) and
one for sample book 1. -/
def sampleFavoriteRecords : List FavoriteRecord :=
  [{ _id := "f0", userId := "u1", bookId := (sampleBook 0)._id },
   { _id := "f1", userId := "u1", bookId := (sampleBook 1)._id },
   { _id := "f2", userId := "u1", bookId := (sampleBook 0)._id }]

/-- The effect of `BookDetailScreen` on `[favoritedBooks, book._id]`: the flag is derived
again from the favorites sequence. -/
def syncIsFavorited (book : Book) (favoritedBooks : List FavoritedBook)
    (st : DetailState) : DetailState :=
  { st with isFavorited := favoritedBooks.any fun fav => fav._id == book._id }

/-- The screen after `handleFavoriteToggle` and the next render: the effect above runs
again when the store has set a new favorites sequence, which in a toggle happens exactly
when the sequence has changed, and not otherwise. -/
def handleFavoriteToggleSettled (api : Api) (userId : Option String) (book : Book)
    (favoritedBooks : List FavoritedBook) (st : DetailState) : ToggleOutcome :=
  let toggled := handleFavoriteToggle api userId book favoritedBooks st
  if toggled.favoritedBooks = favoritedBooks then toggled
  else { toggled with screen := syncIsFavorited book toggled.favoritedBooks toggled.screen }

/-! ### Basic facts about the embedding -/

theorem any_id_eq_iff (existing : List Book) (x : String) :
    (existing.any fun book => book._id == x) = decide (x ∈ ids existing) := by
  induction existing with
  | nil => simp [ids]
  | cons a t ih =>
    simp only [List.any_cons, ih, ids, List.map_cons, List.mem_cons, beq_iff_eq,
      Bool.decide_or]
    by_cases h : a._id = x
    · simp [h]
    · have h2 : ¬ x = a._id := fun e => h e.symm
      simp [h, h2]

theorem filterNotIn_eq_survivors (existing p : List Book) :
    filterNotIn existing p = survivors existing p := by
  unfold filterNotIn survivors
  apply List.filter_congr
  intro b _
  rw [any_id_eq_iff]
  simp

theorem loadMore_of_hasMore_false (cat : Category) (userId : Option String)
    (server : Server) (s : ProviderState) (hmore : hasMore cat s = false) :
    loadMore cat userId server s = { state := s, events := [], raised := none } := by
  cases cat <;> simp only [hasMore] at hmore <;>
    simp [loadMore, loadMoreOn, loadMoreRecommendedBooks, loadMoreBooksThisWeek, loadMoreBooksNextMonth,
      loadMoreTrendingBooks, loadMoreReleasedBooks, hmore]

theorem loadMore_of_error (cat : Category) (userId : Option String)
    (server : Server) (s : ProviderState) (e : String)
    (hfail : server (loadMoreRequest cat userId s) = .error e) :
    (loadMore cat userId server s).state = s ∧ (loadMore cat userId server s).raised = none := by
  cases cat <;> simp only [loadMoreRequest] at hfail <;>
    simp only [loadMore, loadMoreOn, loadMoreRecommendedBooks, loadMoreBooksThisWeek,
      loadMoreBooksNextMonth, loadMoreTrendingBooks, loadMoreReleasedBooks,
      fetchRecommendedBooks, fetchBooksComingThisWeek, fetchBooksComingNextMonth,
      fetchTrendingBooks, fetchReleasedBooks, fetchWith, hfail] <;>
    split <;> simp

theorem books_loadMore_of_ok (cat : Category) (userId : Option String)
    (server : Server) (s : ProviderState) (P : List Book)
    (hmore : hasMore cat s = true)
    (hok : server (loadMoreRequest cat userId s) = .ok P) :
    books cat (loadMore cat userId server s).state
      = books cat s ++ survivors (books cat s) P := by
  cases cat <;> simp only [hasMore] at hmore <;> simp only [loadMoreRequest] at hok <;>
    simp [loadMore, loadMoreOn, loadMoreRecommendedBooks, loadMoreBooksThisWeek,
      loadMoreBooksNextMonth, loadMoreTrendingBooks, loadMoreReleasedBooks,
      fetchRecommendedBooks, fetchBooksComingThisWeek, fetchBooksComingNextMonth,
      fetchTrendingBooks, fetchReleasedBooks, fetchWith, hok, hmore, books,
      filterNotIn_eq_survivors] <;>
    split <;> rfl

theorem nodup_ids_append_survivors (S P : List Book) (hS : (ids S).Nodup)
    (hP : (ids P).Nodup) : (ids (S ++ survivors S P)).Nodup := by
  unfold ids at *
  rw [List.map_append, List.nodup_append]
  refine ⟨hS, ?_, ?_⟩
  · exact hP.sublist (List.Sublist.map _ (List.filter_sublist P))
  · intro x hx hx2
    simp only [survivors, ids, List.mem_map, List.mem_filter, decide_eq_true_eq] at hx2
    obtain ⟨b, ⟨_, hb⟩, rfl⟩ := hx2
    exact hb (List.mem_map.mp hx)

theorem refresh_of_ok (userId : Option String) (server : Server) (s : ProviderState)
    (P : List Book) (hok : server (refreshRequest userId) = .ok P) :
    refreshRecommendedBooks userId server s =
      { state :=
          { s with
            fetchedBookIds :=
              (P.filter fun book => !s.fetchedBookIds.has book._id).foldl
                (fun acc book => IdSet.add acc book._id) s.fetchedBookIds
            recommendedBooks := P.filter fun book => !s.fetchedBookIds.has book._id
            recommendedOffset := 20
            hasMoreRecommended :=
              decide ((P.filter fun book => !s.fetchedBookIds.has book._id).length = 20) }
        events := [.request (refreshRequest userId)]
        raised := none } := by
  simp only [refreshRequest] at hok
  simp [refreshRecommendedBooks, fetchRecommendedBooks, fetchWith, hok,
    filterOutDuplicateBooksGlobally, refreshRequest]

theorem refresh_of_error (userId : Option String) (server : Server) (s : ProviderState)
    (e : String) (hfail : server (refreshRequest userId) = .error e) :
    (refreshRecommendedBooks userId server s).state = s ∧
      (refreshRecommendedBooks userId server s).raised = none := by
  simp only [refreshRequest] at hfail
  simp [refreshRecommendedBooks, fetchRecommendedBooks, fetchWith, hfail]

theorem filter_not_has_eq (seen : IdSet) (P : List Book) :
    (P.filter fun book => !seen.has book._id) = P.filter fun b => decide (b._id ∉ seen) := by
  apply List.filter_congr
  intro b _
  simp [IdSet.has]

theorem hasMore_loadMore_other (cat cat' : Category) (userId : Option String)
    (server : Server) (s : ProviderState) (hne : cat ≠ cat') :
    hasMore cat (loadMore cat' userId server s).state = hasMore cat s := by
  cases cat <;> cases cat' <;> first
    | exact absurd rfl hne
    | (simp only [loadMore, loadMoreOn, loadMoreRecommendedBooks, loadMoreBooksThisWeek,
        loadMoreBooksNextMonth, loadMoreTrendingBooks, loadMoreReleasedBooks, hasMore]
       repeat' split
       all_goals rfl)

theorem hasMore_loadMore_of_ok (cat : Category) (userId : Option String)
    (server : Server) (s : ProviderState) (P : List Book)
    (hmore : hasMore cat s = true)
    (hok : server (loadMoreRequest cat userId s) = .ok P) :
    hasMore cat (loadMore cat userId server s).state =
      if cat = .thisWeek then decide ((survivors (books cat s) P).length = 20)
      else decide (20 ≤ P.length) := by
  cases cat <;> simp only [hasMore] at hmore <;> simp only [loadMoreRequest] at hok <;>
    simp [loadMore, loadMoreOn, loadMoreRecommendedBooks, loadMoreBooksThisWeek,
      loadMoreBooksNextMonth, loadMoreTrendingBooks, loadMoreReleasedBooks,
      fetchRecommendedBooks, fetchBooksComingThisWeek, fetchBooksComingNextMonth,
      fetchTrendingBooks, fetchReleasedBooks, fetchWith, hok, hmore, books, hasMore,
      filterNotIn_eq_survivors] <;>
    split <;> simp_all

theorem offset_loadMore_of_ok (cat : Category) (userId : Option String)
    (server : Server) (s : ProviderState) (P : List Book)
    (hmore : hasMore cat s = true)
    (hok : server (loadMoreRequest cat userId s) = .ok P) :
    offset cat (loadMore cat userId server s).state =
      if cat = .thisWeek then offset cat s else offset cat s + 20 := by
  cases cat <;> simp only [hasMore] at hmore <;> simp only [loadMoreRequest] at hok <;>
    simp [loadMore, loadMoreOn, loadMoreRecommendedBooks, loadMoreBooksThisWeek,
      loadMoreBooksNextMonth, loadMoreTrendingBooks, loadMoreReleasedBooks,
      fetchRecommendedBooks, fetchBooksComingThisWeek, fetchBooksComingNextMonth,
      fetchTrendingBooks, fetchReleasedBooks, fetchWith, hok, hmore, offset] <;>
    split <;> rfl

theorem hasMore_loadMore_of_false (cat cat' : Category) (userId : Option String)
    (server : Server) (s : ProviderState) (hfalse : hasMore cat s = false) :
    hasMore cat (loadMore cat' userId server s).state = false := by
  by_cases h : cat = cat'
  · subst h
    rw [loadMore_of_hasMore_false cat userId server s hfalse]
    exact hfalse
  · rw [hasMore_loadMore_other cat cat' userId server s h]
    exact hfalse

theorem hasMore_runLoadMores_of_false (cat : Category)
    (calls : List (Category × Option String × Server)) (s : ProviderState)
    (hfalse : hasMore cat s = false) : hasMore cat (runLoadMores calls s) = false := by
  induction calls generalizing s with
  | nil => exact hfalse
  | cons c rest ih =>
    simp only [runLoadMores, List.foldl_cons]
    exact ih _ (hasMore_loadMore_of_false cat c.1 c.2.1 c.2.2 s hfalse)

theorem survivors_length_le (S P : List Book) : (survivors S P).length ≤ P.length :=
  List.length_filter_le _ P

theorem weekOffset_loadMoreBooksThisWeek (server : Server) (render s : ProviderState) :
    (loadMoreBooksThisWeek server render s).state.weekOffset = s.weekOffset := by
  simp only [loadMoreBooksThisWeek]
  repeat' split
  all_goals rfl

theorem mem_foldl_add (l : List String) (acc : IdSet) (x : String) :
    x ∈ l.foldl IdSet.add acc ↔ x ∈ acc ∨ x ∈ l := by
  induction l generalizing acc with
  | nil => simp
  | cons a t ih =>
    rw [List.foldl_cons, ih]
    unfold IdSet.add
    by_cases h : acc.contains a = true
    · rw [if_pos h]
      have ha : a ∈ acc := by simpa using h
      constructor
      · rintro (h1 | h1)
        · exact Or.inl h1
        · exact Or.inr (List.mem_cons_of_mem _ h1)
      · rintro (h1 | h1)
        · exact Or.inl h1
        · rcases List.mem_cons.mp h1 with h2 | h2
          · exact Or.inl (h2 ▸ ha)
          · exact Or.inr h2
    · rw [if_neg h]
      simp only [List.mem_append, List.mem_singleton, List.mem_cons]
      tauto

theorem has_ofList (l : List String) (x : String) :
    (IdSet.ofList l).has x = decide (x ∈ l) := by
  unfold IdSet.ofList IdSet.has
  by_cases h : x ∈ l
  · have h2 : x ∈ l.foldl IdSet.add [] := (mem_foldl_add l [] x).mpr (Or.inr h)
    simp [h, h2]
  · have h2 : ¬ x ∈ l.foldl IdSet.add [] := fun hx =>
      ((mem_foldl_add l [] x).mp hx).elim (fun h0 => by simp at h0) h
    simp [h, h2]

theorem filterDuplicates_eq_survivors (newResults existingResults : List Book) :
    filterDuplicates newResults existingResults = survivors existingResults newResults := by
  unfold filterDuplicates survivors ids
  apply List.filter_congr
  intro b _
  rw [has_ofList]
  simp only [decide_not]

theorem filterDuplicates_nil (newResults : List Book) :
    filterDuplicates newResults [] = newResults := by
  rw [filterDuplicates_eq_survivors]
  simp [survivors, ids]

theorem sum_map_dropWhile_le (f : Char → Nat) (p : Char → Bool) (l : List Char) :
    ((l.dropWhile p).map f).sum ≤ (l.map f).sum := by
  induction l with
  | nil => simp
  | cons a t ih =>
    rw [List.dropWhile_cons]
    split
    · simp only [List.map_cons, List.sum_cons]
      omega
    · exact le_refl _

theorem sum_map_trim_le (f : Char → Nat) (p : Char → Bool) (l : List Char) :
    ((((l.dropWhile p).reverse.dropWhile p).reverse).map f).sum ≤ (l.map f).sum := by
  rw [List.map_reverse, List.sum_reverse]
  calc
    (List.map f ((l.dropWhile p).reverse.dropWhile p)).sum
        ≤ (List.map f (l.dropWhile p).reverse).sum := sum_map_dropWhile_le _ _ _
    _ = (List.map f (l.dropWhile p)).sum := by rw [List.map_reverse, List.sum_reverse]
    _ ≤ (List.map f l).sum := sum_map_dropWhile_le _ _ _

theorem jsLength_jsTrim_le (s : String) : jsLength (jsTrim s) ≤ jsLength s :=
  sum_map_trim_le (fun c => if c.toNat < 0x10000 then 1 else 2) jsIsWhiteSpace s.toList

theorem survivors_length_add (S P : List Book) :
    (survivors S P).length + (P.filter fun b => decide (b._id ∈ ids S)).length = P.length := by
  induction P with
  | nil => rfl
  | cons a t ih =>
    unfold survivors at ih ⊢
    by_cases h : a._id ∈ ids S
    · simp only [List.filter_cons, h, not_true_eq_false, decide_False, decide_True,
        Bool.false_eq_true, if_false, if_true, List.length_cons]
      omega
    · simp only [List.filter_cons, h, not_false_eq_true, decide_False, decide_True,
        Bool.false_eq_true, if_false, if_true, List.length_cons]
      omega

theorem survivors_nil (P : List Book) : survivors [] P = P := by
  simp [survivors, ids]

theorem loadMoreResults_of_ok (api : Api) (s : SearchState) (P : List Book)
    (hmore : s.hasMoreResults = true) (hidle : s.isLoadingMore = false)
    (hok : api.search s.searchQuery 20 (s.page * 20) s.searchType = .ok P) :
    loadMoreResults api s =
      { state :=
          { s with
            searchResults := s.searchResults ++ survivors s.searchResults P
            hasMoreResults := decide ((survivors s.searchResults P).length = 20)
            page := s.page + 1
            isLoadingMore := false }
        effects := [.request (.search s.searchQuery 20 (s.page * 20) s.searchType)]
        raised := none } := by
  simp [loadMoreResults, searchBooks, hmore, hidle, hok, filterDuplicates_eq_survivors]

theorem performSearchNow_of_ok (searchType : String) (api : Api) (query : String)
    (s : SearchState) (P : List Book)
    (hlen : 3 ≤ jsLength (jsTrim query))
    (hok : api.search query 20 0 searchType = .ok P) :
    performSearchNow searchType api query s =
      { state :=
          { s with
            searchResults := P
            hasMoreResults := decide (P.length = 20)
            page := 1
            isLoading := false }
        effects := [.request (.search query 20 0 searchType)]
        raised := none } := by
  have hnot : ¬ jsLength (jsTrim query) < 3 := by omega
  simp [performSearchNow, searchBooks, hnot, hok, filterDuplicates_nil]

theorem performSearchNow_of_short (searchType : String) (api : Api) (query : String)
    (s : SearchState) (hlen : jsLength (jsTrim query) < 3) :
    performSearchNow searchType api query s =
      { state := { s with searchResults := [], hasMoreResults := false }, effects := [],
        raised := none } := by
  simp [performSearchNow, hlen]

theorem performSearchNow_first_effect (searchType : String) (api : Api) (query : String)
    (s : SearchState) (hlen : 3 ≤ jsLength (jsTrim query)) :
    (performSearchNow searchType api query s).effects.head?
      = some (.request (.search query 20 0 searchType)) := by
  have hnot : ¬ jsLength (jsTrim query) < 3 := by omega
  simp only [performSearchNow, searchBooks, hnot, if_false]
  cases api.search query 20 0 searchType <;> rfl

theorem addFavoritedBook_of_save_error (api : Api) (userId : Option String)
    (bookId : String) (F : List FavoritedBook) (e : String)
    (hsave : api.saveFavorite userId bookId = .error e) :
    (addFavoritedBook api userId bookId F).state = F ∧
      (addFavoritedBook api userId bookId F).raised = none := by
  simp [addFavoritedBook, saveFavoritedBook, hsave]

theorem addFavoritedBook_raised (api : Api) (userId : Option String)
    (bookId : String) (F : List FavoritedBook) :
    (addFavoritedBook api userId bookId F).raised = none := by
  simp only [addFavoritedBook]
  repeat' split
  all_goals rfl

theorem addFavoritedBook_of_lookup_error (api : Api) (userId : Option String)
    (bookId : String) (F : List FavoritedBook) (e : String)
    (hlook : api.booksByIds [bookId] = .error e) :
    (addFavoritedBook api userId bookId F).state = F := by
  cases hsave : api.saveFavorite userId bookId with
  | error e' => exact (addFavoritedBook_of_save_error api userId bookId F e' hsave).1
  | ok f => simp [addFavoritedBook, saveFavoritedBook, getBooksByIds, hsave, hlook]

theorem addFavoritedBook_of_lookup_nil (api : Api) (userId : Option String)
    (bookId : String) (F : List FavoritedBook)
    (hlook : api.booksByIds [bookId] = .ok []) :
    (addFavoritedBook api userId bookId F).state = F := by
  cases hsave : api.saveFavorite userId bookId with
  | error e' => exact (addFavoritedBook_of_save_error api userId bookId F e' hsave).1
  | ok f => simp [addFavoritedBook, saveFavoritedBook, getBooksByIds, hsave, hlook]

theorem addFavoritedBook_of_ok (api : Api) (userId : Option String)
    (bookId : String) (F : List FavoritedBook) (f : String) (b : Book) (rest : List Book)
    (hsave : api.saveFavorite userId bookId = .ok f)
    (hlook : api.booksByIds [bookId] = .ok (b :: rest)) :
    addFavoritedBook api userId bookId F =
      { state := F ++ [{ toBook := b, favoritedId := f }]
        effects := [.request (.saveFavorite userId bookId), .request (.booksByIds [bookId])]
        raised := none } := by
  simp [addFavoritedBook, saveFavoritedBook, getBooksByIds, hsave, hlook]

theorem removeFavoritedBookFromState_of_ok (api : Api) (f : String)
    (F : List FavoritedBook) (hdel : api.deleteFavorite f = .ok ()) :
    removeFavoritedBookFromState api f F =
      { state := F.filter fun book => book.favoritedId != f
        effects := [.request (.deleteFavorite f)]
        raised := none } := by
  simp [removeFavoritedBookFromState, removeFavoritedBook, hdel]

theorem removeFavoritedBookFromState_of_error (api : Api) (f : String)
    (F : List FavoritedBook) (e : String) (hdel : api.deleteFavorite f = .error e) :
    (removeFavoritedBookFromState api f F).state = F ∧
      (removeFavoritedBookFromState api f F).raised = none := by
  simp [removeFavoritedBookFromState, removeFavoritedBook, hdel]

theorem filter_favoritedId_of_fresh (F : List FavoritedBook) (f : String)
    (hfresh : f ∉ favoritedIds F) :
    (F.filter fun book => book.favoritedId != f) = F := by
  rw [List.filter_eq_self]
  intro r hr
  have hne : r.favoritedId ≠ f := fun h =>
    hfresh (h ▸ List.mem_map.mpr ⟨r, hr, rfl⟩)
  simpa using hne

theorem addFavoritedBook_state_cases (api : Api) (userId : Option String)
    (bookId : String) (F : List FavoritedBook) (f : String)
    (hsave : api.saveFavorite userId bookId = .ok f) :
    (addFavoritedBook api userId bookId F).state = F ∨
      ∃ b, (addFavoritedBook api userId bookId F).state
        = F ++ [{ toBook := b, favoritedId := f }] := by
  cases hlook : api.booksByIds [bookId] with
  | error e => exact Or.inl (addFavoritedBook_of_lookup_error api userId bookId F e hlook)
  | ok l =>
    cases l with
    | nil => exact Or.inl (addFavoritedBook_of_lookup_nil api userId bookId F hlook)
    | cons b rest =>
      exact Or.inr ⟨b, by rw [addFavoritedBook_of_ok api userId bookId F f b rest hsave hlook]⟩

theorem addFavoritedBook_of_no_book (api : Api) (userId : Option String)
    (bookId : String) (F : List FavoritedBook)
    (hlook : (getBooksByIds api (some [bookId])).result = .ok []) :
    (addFavoritedBook api userId bookId F).state = F := by
  cases hsave : api.saveFavorite userId bookId with
  | error e' => exact (addFavoritedBook_of_save_error api userId bookId F e' hsave).1
  | ok f => simp [addFavoritedBook, saveFavoritedBook, hsave, hlook]

theorem foldl_add_ids (l : List Book) (acc : IdSet) :
    l.foldl (fun acc book => IdSet.add acc book._id) acc
      = (l.map fun book => book._id).foldl IdSet.add acc := by
  rw [List.foldl_map]

theorem mem_seen_after_filter (seen : IdSet) (P : List Book) (b : Book) (hb : b ∈ P) :
    b._id ∈ (P.filter fun book => !seen.has book._id).foldl
      (fun acc book => IdSet.add acc book._id) seen := by
  rw [foldl_add_ids, mem_foldl_add]
  by_cases h : b._id ∈ seen
  · exact Or.inl h
  · exact Or.inr (List.mem_map.mpr
      ⟨b, List.mem_filter.mpr ⟨hb, by simp [IdSet.has, h]⟩, rfl⟩)

theorem filter_seen_after_filter (seen : IdSet) (P : List Book) :
    (P.filter fun book =>
      !IdSet.has ((P.filter fun book => !seen.has book._id).foldl
        (fun acc book => IdSet.add acc book._id) seen) book._id) = [] := by
  rw [List.filter_eq_nil_iff]
  intro b hb
  have hmem := mem_seen_after_filter seen P b hb
  have hhas : IdSet.has ((P.filter fun book => !seen.has book._id).foldl
      (fun acc book => IdSet.add acc book._id) seen) b._id = true :=
    List.elem_eq_true_of_mem hmem
  rw [hhas]
  decide

theorem refresh_twice (userId : Option String) (server1 server2 : Server)
    (s : ProviderState) (P : List Book)
    (hok1 : server1 (refreshRequest userId) = .ok P)
    (hok2 : server2 (refreshRequest userId) = .ok P) :
    (refreshRecommendedBooks userId server2
        (refreshRecommendedBooks userId server1 s).state).state.recommendedBooks = [] ∧
    (refreshRecommendedBooks userId server2
        (refreshRecommendedBooks userId server1 s).state).state.hasMoreRecommended = false := by
  rw [refresh_of_ok userId server2 _ P hok2, refresh_of_ok userId server1 s P hok1]
  simp [filter_seen_after_filter]

theorem seen_after_refresh (userId : Option String) (server : Server)
    (s : ProviderState) (P : List Book) (hok : server (refreshRequest userId) = .ok P)
    (b : Book) (hb : b ∈ P) :
    b._id ∈ (refreshRecommendedBooks userId server s).state.fetchedBookIds := by
  rw [refresh_of_ok userId server s P hok]
  exact mem_seen_after_filter s.fetchedBookIds P b hb

theorem filterOutDuplicateBooksGlobally_fst (s : ProviderState) (newBooks : List Book) :
    (filterOutDuplicateBooksGlobally s newBooks).1
      = newBooks.filter fun b => decide (b._id ∉ s.fetchedBookIds) := by
  simp only [filterOutDuplicateBooksGlobally]
  exact filter_not_has_eq _ _

theorem keys_jsMapSet {κ α : Type} [DecidableEq κ] (m : List (κ × α)) (k : κ) (v : α) :
    (jsMapSet m k v).map Prod.fst
      = if k ∈ m.map Prod.fst then m.map Prod.fst else m.map Prod.fst ++ [k] := by
  unfold jsMapSet
  by_cases h : k ∈ m.map Prod.fst
  · have hany : (m.any fun e => decide (e.1 = k)) = true := by
      obtain ⟨e, he, hek⟩ := List.mem_map.mp h
      exact List.any_eq_true.mpr ⟨e, he, by simpa using hek⟩
    rw [if_pos hany, if_pos h, List.map_map]
    apply List.map_congr_left
    intro e _
    by_cases hek : e.1 = k
    · simp [hek]
    · simp [hek]
  · have hany : ¬ (m.any fun e => decide (e.1 = k)) = true := by
      intro hc
      obtain ⟨e, he, hek⟩ := List.any_eq_true.mp hc
      exact h (List.mem_map.mpr ⟨e, he, by simpa using hek⟩)
    rw [if_neg hany, if_neg h]
    simp

theorem mem_jsMapSet {κ α : Type} [DecidableEq κ] (m : List (κ × α)) (k : κ) (v : α)
    (e : κ × α) (he : e ∈ jsMapSet m k v) : e ∈ m ∨ e = (k, v) := by
  unfold jsMapSet at he
  split at he
  · obtain ⟨e0, he0, hee⟩ := List.mem_map.mp he
    by_cases hk : e0.1 = k
    · rw [if_pos hk] at hee
      exact Or.inr hee.symm
    · rw [if_neg hk] at hee
      exact Or.inl (hee ▸ he0)
  · rcases List.mem_append.mp he with h | h
    · exact Or.inl h
    · exact Or.inr (List.mem_singleton.mp h)

theorem nodup_keys_foldl_jsMapSet {κ α : Type} [DecidableEq κ] (l m : List (κ × α))
    (hm : (m.map Prod.fst).Nodup) :
    ((l.foldl (fun m e => jsMapSet m e.1 e.2) m).map Prod.fst).Nodup := by
  induction l generalizing m with
  | nil => exact hm
  | cons a t ih =>
    rw [List.foldl_cons]
    apply ih
    rw [keys_jsMapSet]
    split
    · exact hm
    · rename_i hnot
      rw [List.nodup_append]
      refine ⟨hm, List.nodup_singleton _, ?_⟩
      intro x hx hx2
      rw [List.mem_singleton] at hx2
      exact hnot (hx2 ▸ hx)

theorem mem_foldl_jsMapSet {κ α : Type} [DecidableEq κ] (l m : List (κ × α))
    (e : κ × α) (he : e ∈ l.foldl (fun m e => jsMapSet m e.1 e.2) m) : e ∈ m ∨ e ∈ l := by
  induction l generalizing m with
  | nil => exact Or.inl he
  | cons a t ih =>
    rw [List.foldl_cons] at he
    rcases ih _ he with h | h
    · rcases mem_jsMapSet m a.1 a.2 e h with h1 | h1
      · exact Or.inl h1
      · exact Or.inr (h1 ▸ List.mem_cons_self _ _)
    · exact Or.inr (List.mem_cons_of_mem _ h)

theorem keys_foldl_jsMapSet_of_mem {κ α : Type} [DecidableEq κ] (l m : List (κ × α))
    (k : κ) (hk : k ∈ m.map Prod.fst ∨ k ∈ l.map Prod.fst) :
    k ∈ (l.foldl (fun m e => jsMapSet m e.1 e.2) m).map Prod.fst := by
  induction l generalizing m with
  | nil =>
    rcases hk with h | h
    · exact h
    · simp at h
  | cons a t ih =>
    rw [List.foldl_cons]
    apply ih
    rw [keys_jsMapSet]
    rcases hk with h | h
    · left
      split
      · exact h
      · exact List.mem_append_left _ h
    · rw [List.map_cons, List.mem_cons] at h
      rcases h with h1 | h1
      · left
        split
        · rename_i hin
          exact h1 ▸ hin
        · exact List.mem_append_right _ (List.mem_singleton.mpr h1)
      · exact Or.inr h1

theorem removeDuplicates_keys {κ α : Type} [DecidableEq κ] (arr : List α) (key : α → κ) :
    (removeDuplicates arr key).map key
      = (jsMapOfEntries (arr.map fun item => (key item, item))).map Prod.fst := by
  unfold removeDuplicates
  rw [List.map_map]
  apply List.map_congr_left
  intro e he
  rcases mem_foldl_jsMapSet _ [] e he with h | h
  · simp at h
  · obtain ⟨item, _, hitem⟩ := List.mem_map.mp h
    rw [← hitem]
    rfl

theorem removeDuplicates_sample :
    removeDuplicates sampleItems Prod.fst = [("b1", "second copy"), ("b2", "other book")] := by
  decide

theorem digitChar_facts (n : Nat) :
    digitChar n ≠ 'T' ∧ digitChar n ≠ '-' := by
  have hall : ∀ i : Fin 10, digitChar i.val ≠ 'T' ∧ digitChar i.val ≠ '-' := by decide
  have h := hall ⟨n % 10, Nat.mod_lt n (by decide)⟩
  have hd : digitChar (n % 10) = digitChar n := by
    unfold digitChar
    rw [Nat.mod_mod]
  rw [← hd]
  exact h

theorem jsSplit_append_sep (sep : Char) (pre rest : List Char)
    (hpre : ∀ c ∈ pre, c ≠ sep) :
    jsSplit sep (pre ++ sep :: rest) = pre :: jsSplit sep rest := by
  induction pre with
  | nil => simp [jsSplit]
  | cons c t ih =>
    have hc : c ≠ sep := hpre c (List.mem_cons_self _ _)
    have ht : ∀ x ∈ t, x ≠ sep := fun x hx => hpre x (List.mem_cons_of_mem _ hx)
    rw [List.cons_append, jsSplit, if_neg hc, ih ht]

theorem jsSplit_of_no_sep (sep : Char) (pre : List Char) (hpre : ∀ c ∈ pre, c ≠ sep) :
    jsSplit sep pre = [pre] := by
  induction pre with
  | nil => rfl
  | cons c t ih =>
    have hc : c ≠ sep := hpre c (List.mem_cons_self _ _)
    have ht : ∀ x ∈ t, x ≠ sep := fun x hx => hpre x (List.mem_cons_of_mem _ hx)
    rw [jsSplit, if_neg hc, ih ht]

theorem parseInt_pad2 (n : Nat) (hn : n < 100) : parseInt (some (pad2 n)) = some (n : Int) := by
  have hall : ∀ i : Fin 100, parseInt (some (pad2 i.val)) = some (i.val : Int) := by decide
  exact hall ⟨n, hn⟩

theorem monthName_pad2 (month : Nat) (h1 : 1 ≤ month) (h12 : month ≤ 12) :
    jsIndex monthNames ((parseInt (some (pad2 month))).map fun m => m - 1)
      = monthNames[month - 1]? := by
  interval_cases month <;> decide

theorem isoDate_no_T (year month day : Nat) : ∀ c ∈ isoDate year month day, c ≠ 'T' := by
  intro c hc
  simp only [isoDate, pad4, pad2, List.cons_append, List.nil_append, List.mem_cons,
    List.mem_singleton, List.not_mem_nil, or_false] at hc
  rcases hc with h | h | h | h | h | h | h | h | h | h
  all_goals first
    | (rw [h]; exact (digitChar_facts _).1)
    | (rw [h]; decide)

theorem jsSplit_dash_isoDate (year month day : Nat) :
    jsSplit '-' (isoDate year month day) = [pad4 year, pad2 month, pad2 day] := by
  have h4 : ∀ c ∈ pad4 year, c ≠ '-' := by
    intro c hc
    simp only [pad4, List.mem_cons, List.mem_singleton, List.not_mem_nil, or_false] at hc
    rcases hc with h | h | h | h <;> rw [h] <;> exact (digitChar_facts _).2
  have h2 : ∀ n, ∀ c ∈ pad2 n, c ≠ '-' := by
    intro n c hc
    simp only [pad2, List.mem_cons, List.mem_singleton, List.not_mem_nil, or_false] at hc
    rcases hc with h | h <;> rw [h] <;> exact (digitChar_facts _).2
  unfold isoDate
  rw [jsSplit_append_sep '-' _ _ h4, jsSplit_append_sep '-' _ _ (h2 month),
    jsSplit_of_no_sep '-' _ (h2 day)]

theorem formatDate_of_parts (chars y m d : List Char) (hne : chars ≠ [])
    (hparts : jsSplit '-' ((jsSplit 'T' chars).headD []) = [y, m, d]) :
    formatDate (some (String.mk chars)) =
      (match jsIndex monthNames ((parseInt (some m)).map fun x => x - 1) with
        | some name => name
        | none => "undefined") ++ " " ++
      (match parseInt (some d) with
        | some v => toString v
        | none => "NaN") ++ ", " ++ String.mk y := by
  have hs : String.mk chars ≠ "" := by
    intro h
    exact hne (congrArg String.data h)
  simp only [formatDate, if_neg hs]
  have hparts2 : jsSplit '-' ((jsSplit 'T' (String.mk chars).toList).headD []) = [y, m, d] :=
    hparts
  rw [hparts2]
  rfl

theorem formatDate_isoDate (year month day : Nat) (tail : List Char)
    (htail : tail = [] ∨ ∃ time, tail = 'T' :: time)
    (h1 : 1 ≤ month) (h12 : month ≤ 12) (hd : day < 100) :
    formatDate (some (String.mk (isoDate year month day ++ tail)))
      = monthNames.getD (month - 1) "" ++ " " ++ toString day ++ ", "
        ++ String.mk (pad4 year) := by
  have hhead : (jsSplit 'T' (isoDate year month day ++ tail)).headD []
      = isoDate year month day := by
    rcases htail with h | ⟨time, h⟩
    · rw [h, List.append_nil, jsSplit_of_no_sep 'T' _ (isoDate_no_T year month day)]
      rfl
    · rw [h, jsSplit_append_sep 'T' _ _ (isoDate_no_T year month day)]
      rfl
  have hne : isoDate year month day ++ tail ≠ [] := by
    simp [isoDate, pad4]
  rw [formatDate_of_parts _ (pad4 year) (pad2 month) (pad2 day) hne
    (by rw [hhead]; exact jsSplit_dash_isoDate year month day)]
  rw [monthName_pad2 month h1 h12, parseInt_pad2 day hd]
  have hlt : month - 1 < monthNames.length := by
    have : monthNames.length = 12 := rfl
    omega
  simp only [List.getD_eq_getElem?_getD, List.getElem?_eq_getElem hlt, Option.getD_some]
  rfl

theorem getBooksByIds_result_of_ok (api : Api) (l : List String) (d : List Book)
    (hne : l ≠ []) (hok : api.booksByIds l = .ok d) :
    (getBooksByIds api (some l)).result = .ok d := by
  cases l with
  | nil => exact absurd rfl hne
  | cons a t =>
    simp only [getBooksByIds, List.length_cons, Nat.add_one_ne_zero, if_false, hok]

theorem pairFavorites_ok (response : List FavoriteRecord) (books : List Book)
    (hmatch : ∀ book ∈ books, ∃ fav ∈ response, fav.bookId = book._id) :
    ∃ paired, pairFavorites response books = .ok paired ∧
      paired.map (fun r => r.toBook) = books ∧
      ∀ r ∈ paired, ∃ fav,
        response.find? (fun fav => fav.bookId == r._id) = some fav ∧
        r.favoritedId = fav._id := by
  induction books with
  | nil => exact ⟨[], rfl, rfl, fun r hr => by simp at hr⟩
  | cons book rest ih =>
    obtain ⟨paired, hp, hmap, hall⟩ :=
      ih (fun x hx => hmatch x (List.mem_cons_of_mem _ hx))
    cases hfind : response.find? (fun fav => fav.bookId == book._id) with
    | none =>
      obtain ⟨fav, hfav, hid⟩ := hmatch book (List.mem_cons_self _ _)
      have hnone := List.find?_eq_none.mp hfind fav hfav
      simp [hid] at hnone
    | some fav =>
      refine ⟨{ toBook := book, favoritedId := fav._id } :: paired, ?_, ?_, ?_⟩
      · simp only [pairFavorites, hfind, hp]
      · simp only [List.map_cons, hmap]
      · intro r hr
        rcases List.mem_cons.mp hr with h | h
        · exact ⟨fav, by rw [h]; exact hfind, by rw [h]⟩
        · exact hall r h

theorem pairFavorites_error (response : List FavoriteRecord) (books : List Book)
    (hmiss : ∃ book ∈ books, ∀ fav ∈ response, fav.bookId ≠ book._id) :
    ∃ e, pairFavorites response books = .error e := by
  induction books with
  | nil =>
    obtain ⟨book, hb, _⟩ := hmiss
    simp at hb
  | cons book rest ih =>
    cases hfind : response.find? (fun fav => fav.bookId == book._id) with
    | none =>
      exact ⟨"TypeError: cannot read property _id of undefined",
        by simp only [pairFavorites, hfind]⟩
    | some fav =>
      have hrest : ∃ x ∈ rest, ∀ fav ∈ response, fav.bookId ≠ x._id := by
        obtain ⟨x, hx, hxmiss⟩ := hmiss
        rcases List.mem_cons.mp hx with h | h
        · have hp := List.find?_some hfind
          have hmem := List.mem_of_find?_eq_some hfind
          have hne := hxmiss fav hmem
          rw [h] at hne
          simp at hp
          exact absurd hp hne
        · exact ⟨x, h, hxmiss⟩
      obtain ⟨e, he⟩ := ih hrest
      exact ⟨e, by simp only [pairFavorites, hfind, he]⟩

theorem lookup_of_favorites (b : InitBackend) (response : List FavoriteRecord)
    (books : List Book) (hne : response ≠ [])
    (hbooks : b.api.booksByIds (response.map fun fav => fav.bookId) = .ok books) :
    (if (response.map fun fav => fav.bookId).length > 0
      then (getBooksByIds b.api (some (response.map fun fav => fav.bookId))).result
      else .ok []) = .ok books := by
  have hids : (response.map fun fav => fav.bookId) ≠ [] := by
    intro h
    exact hne (List.map_eq_nil_iff.mp h)
  have hpos : (response.map fun fav => fav.bookId).length > 0 :=
    List.length_pos.mpr hids
  rw [if_pos hpos]
  exact getBooksByIds_result_of_ok b.api _ books hids hbooks

theorem initializeData_error_of_pair_error (b : InitBackend) (userId : String)
    (response : List FavoriteRecord) (books : List Book) (e : String)
    (hresp : b.favorites userId = .ok response) (hne : response ≠ [])
    (hbooks : b.api.booksByIds (response.map fun fav => fav.bookId) = .ok books)
    (hpair : pairFavorites response books = .error e) :
    ∃ e', initializeData b userId = .error e' := by
  have hlook := lookup_of_favorites b response books hne hbooks
  simp only [initializeData, getFavoritedBooks, hresp, hlook, hpair]
  repeat' split
  all_goals exact ⟨_, rfl⟩

theorem initializeData_favoritedBooks (b : InitBackend) (userId : String)
    (response : List FavoriteRecord) (books : List Book) (paired : List FavoritedBook)
    (hresp : b.favorites userId = .ok response) (hne : response ≠ [])
    (hbooks : b.api.booksByIds (response.map fun fav => fav.bookId) = .ok books)
    (hpair : pairFavorites response books = .ok paired)
    (data : InitialData) (hdata : initializeData b userId = .ok data) :
    data.favoritedBooks = paired := by
  have hlook := lookup_of_favorites b response books hne hbooks
  simp only [initializeData, getFavoritedBooks, hresp, hlook, hpair] at hdata
  repeat' (split at hdata)
  all_goals first
    | (cases hdata; rfl)
    | cases hdata

theorem loadMoreOn_of_hasMore_false (cat : Category) (userId : Option String)
    (server : Server) (render s : ProviderState) (hmore : hasMore cat render = false) :
    loadMoreOn cat userId server render s = { state := s, events := [], raised := none } := by
  cases cat <;> simp only [hasMore] at hmore <;>
    simp [loadMoreOn, loadMoreRecommendedBooks, loadMoreBooksThisWeek,
      loadMoreBooksNextMonth, loadMoreTrendingBooks, loadMoreReleasedBooks, hmore]

theorem loadMoreOn_of_error (cat : Category) (userId : Option String)
    (server : Server) (render s : ProviderState) (e : String)
    (hfail : server (loadMoreRequest cat userId render) = .error e) :
    (loadMoreOn cat userId server render s).state = s := by
  cases cat <;> simp only [loadMoreRequest] at hfail <;>
    simp only [loadMoreOn, loadMoreRecommendedBooks, loadMoreBooksThisWeek,
      loadMoreBooksNextMonth, loadMoreTrendingBooks, loadMoreReleasedBooks,
      fetchRecommendedBooks, fetchBooksComingThisWeek, fetchBooksComingNextMonth,
      fetchTrendingBooks, fetchReleasedBooks, fetchWith, hfail] <;>
    split <;> rfl

theorem books_loadMoreOn_of_ok (cat : Category) (userId : Option String)
    (server : Server) (render s : ProviderState) (P : List Book)
    (hmore : hasMore cat render = true)
    (hok : server (loadMoreRequest cat userId render) = .ok P) :
    books cat (loadMoreOn cat userId server render s).state
      = books cat s ++ survivors (books cat render) P := by
  cases cat <;> simp only [hasMore] at hmore <;> simp only [loadMoreRequest] at hok <;>
    simp [loadMoreOn, loadMoreRecommendedBooks, loadMoreBooksThisWeek,
      loadMoreBooksNextMonth, loadMoreTrendingBooks, loadMoreReleasedBooks,
      fetchRecommendedBooks, fetchBooksComingThisWeek, fetchBooksComingNextMonth,
      fetchTrendingBooks, fetchReleasedBooks, fetchWith, hok, hmore, books,
      filterNotIn_eq_survivors] <;>
    split <;> rfl

/-! ### The claims -/

/-- C1: for each of the five feeds, when has-more is set and the fetch resolves with
page `P`, the sequence after load-more is the old sequence followed by the books of `P`
whose identifier does not occur in the old sequence, in the order of `P`. -/
theorem loadMore_appends_new_books (cat : Category) (userId : Option String)
    (server : Server) (s : ProviderState) (P : List Book)
    (hmore : hasMore cat s = true)
    (hok : server (loadMoreRequest cat userId s) = .ok P) :
    books cat (loadMore cat userId server s).state
      = books cat s ++ P.filter (fun b => decide (b._id ∉ (books cat s).map fun x => x._id)) :=
  books_loadMore_of_ok cat userId server s P hmore hok

/-- C1 (instance): the trending feed holds sample book 0 and the page consists of
sample books 0 and 1. -/
theorem loadMore_appends_new_books_witness :
    hasMore .trending (initialState [] [] [] (samplePage 0 1) []) = true ∧
    serverReturning (samplePage 0 2)
      (loadMoreRequest .trending none (initialState [] [] [] (samplePage 0 1) []))
      = .ok (samplePage 0 2) ∧
    books .trending (loadMore .trending none (serverReturning (samplePage 0 2))
        (initialState [] [] [] (samplePage 0 1) [])).state
      = samplePage 0 1 ++ (samplePage 0 2).filter
          (fun b => decide (b._id ∉ (samplePage 0 1).map fun x => x._id)) :=
  ⟨rfl, rfl, loadMore_appends_new_books .trending none (serverReturning (samplePage 0 2))
    (initialState [] [] [] (samplePage 0 1) []) (samplePage 0 2) rfl rfl⟩

/-- C2 (as stated, refuted): the empty trending feed has pairwise distinct identifiers,
yet after a load-more whose page lists the same book twice it has not, because a page
is only filtered against the sequence held before the call.  And with a page of 20
distinct books: when two calls are made on the same render of the empty feed, the first
leaves 20 distinct identifiers, and the second, whose closure still filters against the
empty sequence, appends the same 20 books again. -/
theorem loadMore_repeated_page_breaks_nodup :
    ((ids (books .trending (initialState [] [] [] [] []))).Nodup ∧
      ¬ (ids (books .trending (loadMore .trending none
          (serverReturning [sampleBook 0, sampleBook 0])
          (initialState [] [] [] [] [])).state)).Nodup) ∧
    ((ids (samplePage 0 20)).Nodup ∧
      (ids (books .trending (loadMoreOn .trending none (serverReturning (samplePage 0 20))
          (initialState [] [] [] [] []) (initialState [] [] [] [] [])).state)).Nodup ∧
      (books .trending (loadMoreOn .trending none (serverReturning (samplePage 0 20))
          (initialState [] [] [] [] [])
          (loadMoreOn .trending none (serverReturning (samplePage 0 20))
            (initialState [] [] [] [] []) (initialState [] [] [] [] [])).state).state).length
        = 40 ∧
      ¬ (ids (books .trending (loadMoreOn .trending none (serverReturning (samplePage 0 20))
          (initialState [] [] [] [] [])
          (loadMoreOn .trending none (serverReturning (samplePage 0 20))
            (initialState [] [] [] [] []) (initialState [] [] [] [] [])).state).state)
        ).Nodup) := by
  refine ⟨⟨?_, ?_⟩, ?_, ?_, ?_, ?_⟩ <;> decide

/-- C2 (amended): for every feed, if the sequence has pairwise distinct identifiers
before the fetch of a load-more resolves, the sequence is still the one of the render the
call was made on (the page is filtered against the sequence it is appended to), and the
fetched page, when there is one, has pairwise distinct identifiers itself, then the
sequence after load-more has pairwise distinct identifiers. -/
theorem loadMore_preserves_nodup (cat : Category) (userId : Option String)
    (server : Server) (render s : ProviderState)
    (hsame : books cat render = books cat s)
    (hS : (ids (books cat s)).Nodup)
    (hP : ∀ P, server (loadMoreRequest cat userId render) = .ok P → (ids P).Nodup) :
    (ids (books cat (loadMoreOn cat userId server render s).state)).Nodup := by
  cases hmore : hasMore cat render with
  | false => rw [loadMoreOn_of_hasMore_false cat userId server render s hmore]; exact hS
  | true =>
    cases hres : server (loadMoreRequest cat userId render) with
    | error e => rw [loadMoreOn_of_error cat userId server render s e hres]; exact hS
    | ok P =>
      rw [books_loadMoreOn_of_ok cat userId server render s P hmore hres, hsame]
      exact nodup_ids_append_survivors _ _ hS (hP P hres)

/-- C2 (amended, instance): the trending feed holds sample book 0, the call resolves on
the state of its render, and the page consists of sample books 0 and 1. -/
theorem loadMore_preserves_nodup_witness :
    books .trending (initialState [] [] [] (samplePage 0 1) [])
      = books .trending (initialState [] [] [] (samplePage 0 1) []) ∧
    (ids (books .trending (initialState [] [] [] (samplePage 0 1) []))).Nodup ∧
    (∀ P, serverReturning (samplePage 0 2)
        (loadMoreRequest .trending none (initialState [] [] [] (samplePage 0 1) [])) = .ok P →
      (ids P).Nodup) ∧
    (ids (books .trending (loadMoreOn .trending none (serverReturning (samplePage 0 2))
        (initialState [] [] [] (samplePage 0 1) [])
        (initialState [] [] [] (samplePage 0 1) [])).state)).Nodup :=
  have hP : ∀ P, serverReturning (samplePage 0 2)
      (loadMoreRequest .trending none (initialState [] [] [] (samplePage 0 1) [])) = .ok P →
      (ids P).Nodup := by
    intro P h
    have hPe : samplePage 0 2 = P := by
      simpa [serverReturning] using h
    subst hPe
    decide
  ⟨rfl, by decide, hP,
    loadMore_preserves_nodup .trending none (serverReturning (samplePage 0 2))
      (initialState [] [] [] (samplePage 0 1) []) (initialState [] [] [] (samplePage 0 1) [])
      rfl (by decide) hP⟩

/-- C3 (as stated, refuted): a refresh that succeeds with a page listing one book twice
stores that book twice, and a refresh that succeeds with a page of 21 books stores 21
books; the page is only filtered against the seen-id set. -/
theorem refresh_keeps_page_repeats_and_length :
    ¬ (ids (refreshRecommendedBooks none (serverReturning [sampleBook 0, sampleBook 0])
        (initialState [] [] [] [] [])).state.recommendedBooks).Nodup ∧
    ¬ (refreshRecommendedBooks none (serverReturning (samplePage 0 21))
        (initialState [] [] [] [] [])).state.recommendedBooks.length ≤ 20 := by
  decide

/-- C3 (amended): after a refresh of the recommended feed that succeeds with a page of
at most 20 books with pairwise distinct identifiers, whatever the prior state, the
resulting sequence has no duplicate identifiers and has length at most 20. -/
theorem refresh_nodup_and_bounded (userId : Option String) (server : Server)
    (s : ProviderState) (P : List Book)
    (hok : server (refreshRequest userId) = .ok P)
    (hP : (ids P).Nodup) (hlen : P.length ≤ 20) :
    (ids (refreshRecommendedBooks userId server s).state.recommendedBooks).Nodup ∧
      (refreshRecommendedBooks userId server s).state.recommendedBooks.length ≤ 20 := by
  rw [refresh_of_ok userId server s P hok]
  constructor
  · exact hP.sublist (List.Sublist.map _ (List.filter_sublist P))
  · exact le_trans (List.length_filter_le _ P) hlen

/-- C3 (amended, instance): a prior state that has already seen sample book 0, and a
page of sample books 0, 1 and 2. -/
theorem refresh_nodup_and_bounded_witness :
    serverReturning (samplePage 0 3) (refreshRequest none) = .ok (samplePage 0 3) ∧
    (ids (samplePage 0 3)).Nodup ∧ (samplePage 0 3).length ≤ 20 ∧
    (ids (refreshRecommendedBooks none (serverReturning (samplePage 0 3))
        { initialState (samplePage 0 1) [] [] [] [] with
          fetchedBookIds := ids (samplePage 0 1) }).state.recommendedBooks).Nodup ∧
    (refreshRecommendedBooks none (serverReturning (samplePage 0 3))
        { initialState (samplePage 0 1) [] [] [] [] with
          fetchedBookIds := ids (samplePage 0 1) }).state.recommendedBooks.length ≤ 20 :=
  ⟨rfl, by decide, by decide,
    refresh_nodup_and_bounded none (serverReturning (samplePage 0 3))
      { initialState (samplePage 0 1) [] [] [] [] with
        fetchedBookIds := ids (samplePage 0 1) }
      (samplePage 0 3) rfl (by decide) (by decide)⟩

/-- C4: a refresh of the recommended feed sends exactly one request, for offset 0 with
limit 20; when it succeeds with page `P` the recommended sequence becomes the books of
`P` whose identifier is not in the seen-id set, in the order of `P`, the offset becomes
20, and has-more is set exactly when that sequence has length 20. -/
theorem refresh_success (userId : Option String) (server : Server) (s : ProviderState)
    (P : List Book)
    (hok : server { path := "/api/recommended-for-you", userId := some userId,
                    limit := 20, offset := 0 } = .ok P) :
    (refreshRecommendedBooks userId server s).events
        = [.request { path := "/api/recommended-for-you", userId := some userId,
                      limit := 20, offset := 0 }] ∧
    (refreshRecommendedBooks userId server s).state.recommendedBooks
        = P.filter (fun b => decide (b._id ∉ s.fetchedBookIds)) ∧
    (refreshRecommendedBooks userId server s).state.recommendedOffset = 20 ∧
    ((refreshRecommendedBooks userId server s).state.hasMoreRecommended = true ↔
      (refreshRecommendedBooks userId server s).state.recommendedBooks.length = 20) := by
  rw [refresh_of_ok userId server s P hok]
  refine ⟨rfl, filter_not_has_eq _ _, rfl, ?_⟩
  simp

/-- C4 (instance): an empty seen-id set and a page of 20 sample books. -/
theorem refresh_success_witness :
    serverReturning (samplePage 0 20)
        { path := "/api/recommended-for-you", userId := some (some "u1"),
          limit := 20, offset := 0 } = .ok (samplePage 0 20) ∧
    (refreshRecommendedBooks (some "u1") (serverReturning (samplePage 0 20))
        (initialState [] [] [] [] [])).events
        = [.request { path := "/api/recommended-for-you", userId := some (some "u1"),
                      limit := 20, offset := 0 }] ∧
    (refreshRecommendedBooks (some "u1") (serverReturning (samplePage 0 20))
        (initialState [] [] [] [] [])).state.recommendedBooks
        = (samplePage 0 20).filter
            (fun b => decide (b._id ∉ (initialState [] [] [] [] []).fetchedBookIds)) ∧
    (refreshRecommendedBooks (some "u1") (serverReturning (samplePage 0 20))
        (initialState [] [] [] [] [])).state.recommendedOffset = 20 ∧
    ((refreshRecommendedBooks (some "u1") (serverReturning (samplePage 0 20))
        (initialState [] [] [] [] [])).state.hasMoreRecommended = true ↔
      (refreshRecommendedBooks (some "u1") (serverReturning (samplePage 0 20))
        (initialState [] [] [] [] [])).state.recommendedBooks.length = 20) :=
  ⟨rfl, refresh_success (some "u1") (serverReturning (samplePage 0 20))
    (initialState [] [] [] [] []) (samplePage 0 20) rfl⟩

/-- C5: for every feed, when has-more is false, load-more returns the state it was
given (sequence, offset, has-more and everything else) and produces no request and no
other event. -/
theorem loadMore_noop_when_exhausted (cat : Category) (userId : Option String)
    (server : Server) (s : ProviderState) (hmore : hasMore cat s = false) :
    (loadMore cat userId server s).state = s ∧
      (loadMore cat userId server s).events = [] ∧
      ∀ r, Event.request r ∉ (loadMore cat userId server s).events := by
  rw [loadMore_of_hasMore_false cat userId server s hmore]
  simp

/-- C5 (instance): the released feed with has-more cleared, on a backend that would
return a page. -/
theorem loadMore_noop_when_exhausted_witness :
    hasMore .released { initialState [] [] [] [] (samplePage 0 3) with
        hasMoreReleased := false } = false ∧
    (loadMore .released none (serverReturning (samplePage 3 2))
        { initialState [] [] [] [] (samplePage 0 3) with hasMoreReleased := false }).state
      = { initialState [] [] [] [] (samplePage 0 3) with hasMoreReleased := false } ∧
    (loadMore .released none (serverReturning (samplePage 3 2))
        { initialState [] [] [] [] (samplePage 0 3) with hasMoreReleased := false }).events
      = [] ∧
    ∀ r, Event.request r ∉ (loadMore .released none (serverReturning (samplePage 3 2))
        { initialState [] [] [] [] (samplePage 0 3) with hasMoreReleased := false }).events :=
  ⟨rfl, loadMore_noop_when_exhausted .released none (serverReturning (samplePage 3 2))
    { initialState [] [] [] [] (samplePage 0 3) with hasMoreReleased := false } rfl⟩

/-- C6: for every feed, a load-more whose fetch resolves with fewer than 20 books
leaves has-more false; once has-more is false, no run of load-more calls (on any feeds,
whatever the backend answers) makes it true again, in particular not after such a short
page; a refresh of the recommended feed can. -/
theorem hasMore_false_is_permanent (cat : Category) (userId : Option String)
    (server : Server) (s : ProviderState) (P : List Book)
    (calls : List (Category × Option String × Server)) (s' : ProviderState)
    (hok : server (loadMoreRequest cat userId s) = .ok P) (hlen : P.length < 20)
    (hfalse : hasMore cat s' = false) :
    hasMore cat (loadMore cat userId server s).state = false ∧
    hasMore cat (runLoadMores calls s') = false ∧
    hasMore cat (runLoadMores calls (loadMore cat userId server s).state) = false ∧
    (hasMore .recommended
        { initialState [] [] [] [] [] with hasMoreRecommended := false } = false ∧
      hasMore .recommended (refreshRecommendedBooks none (serverReturning (samplePage 0 20))
        { initialState [] [] [] [] [] with hasMoreRecommended := false }).state = true) := by
  have h1 : hasMore cat (loadMore cat userId server s).state = false := by
    cases hmore : hasMore cat s with
    | false => exact hasMore_loadMore_of_false cat cat userId server s hmore
    | true =>
      rw [hasMore_loadMore_of_ok cat userId server s P hmore hok]
      have hsurv := survivors_length_le (books cat s) P
      split
      · exact decide_eq_false (by omega)
      · exact decide_eq_false (by omega)
  exact ⟨h1, hasMore_runLoadMores_of_false cat calls s' hfalse,
    hasMore_runLoadMores_of_false cat calls _ h1, by decide, by decide⟩

/-- C6 (instance): the trending feed gets a page of 5 books, then load-more is called
on trending, released and trending again with full pages on offer. -/
theorem hasMore_false_is_permanent_witness :
    serverReturning (samplePage 0 5)
        (loadMoreRequest .trending none (initialState [] [] [] [] [])) = .ok (samplePage 0 5) ∧
    (samplePage 0 5).length < 20 ∧
    hasMore .trending { initialState [] [] [] [] [] with hasMoreTrending := false } = false ∧
    hasMore .trending (loadMore .trending none (serverReturning (samplePage 0 5))
        (initialState [] [] [] [] [])).state = false ∧
    hasMore .trending (runLoadMores
        [(.trending, none, serverReturning (samplePage 5 20)),
         (.released, none, serverReturning (samplePage 5 20)),
         (.trending, none, serverReturning (samplePage 25 20))]
        { initialState [] [] [] [] [] with hasMoreTrending := false }) = false ∧
    hasMore .trending (runLoadMores
        [(.trending, none, serverReturning (samplePage 5 20)),
         (.released, none, serverReturning (samplePage 5 20)),
         (.trending, none, serverReturning (samplePage 25 20))]
        (loadMore .trending none (serverReturning (samplePage 0 5))
          (initialState [] [] [] [] [])).state) = false ∧
    (hasMore .recommended
        { initialState [] [] [] [] [] with hasMoreRecommended := false } = false ∧
      hasMore .recommended (refreshRecommendedBooks none (serverReturning (samplePage 0 20))
        { initialState [] [] [] [] [] with hasMoreRecommended := false }).state = true) :=
  ⟨rfl, by decide, rfl,
    hasMore_false_is_permanent .trending none (serverReturning (samplePage 0 5))
      (initialState [] [] [] [] []) (samplePage 0 5)
      [(.trending, none, serverReturning (samplePage 5 20)),
       (.released, none, serverReturning (samplePage 5 20)),
       (.trending, none, serverReturning (samplePage 25 20))]
      { initialState [] [] [] [] [] with hasMoreTrending := false } rfl (by decide) rfl⟩

/-- C7 (the code at the failing input): `loadMoreBooksThisWeek` never changes the
this-week offset.  On the first-render state holding 20 this-week books, a fetch that
succeeds with 20 further books leaves the offset at 20 instead of 40 with has-more still
set, and the next load-more sends the very same request, for offset 20, again. -/
theorem loadMoreBooksThisWeek_does_not_advance_offset :
    (∀ (server : Server) (s : ProviderState),
      offset .thisWeek (loadMore .thisWeek none server s).state = offset .thisWeek s) ∧
    hasMore .thisWeek (initialState [] (samplePage 0 20) [] [] []) = true ∧
    offset .thisWeek (initialState [] (samplePage 0 20) [] [] []) = 20 ∧
    (loadMore .thisWeek none (serverReturning (samplePage 20 20))
        (initialState [] (samplePage 0 20) [] [] [])).events
      = [.request { path := "/api/books-coming-this-week", userId := none, limit := 20,
                    offset := 20 }] ∧
    offset .thisWeek (loadMore .thisWeek none (serverReturning (samplePage 20 20))
        (initialState [] (samplePage 0 20) [] [] [])).state = 20 ∧
    hasMore .thisWeek (loadMore .thisWeek none (serverReturning (samplePage 20 20))
        (initialState [] (samplePage 0 20) [] [] [])).state = true ∧
    (loadMore .thisWeek none (serverReturning (samplePage 40 20))
        (loadMore .thisWeek none (serverReturning (samplePage 20 20))
          (initialState [] (samplePage 0 20) [] [] [])).state).events
      = [.request { path := "/api/books-coming-this-week", userId := none, limit := 20,
                    offset := 20 }] := by
  refine ⟨fun server s => weekOffset_loadMoreBooksThisWeek server s s, ?_, ?_, ?_, ?_, ?_, ?_⟩
  all_goals decide

/-- C8 (the code at the failing input): on the this-week feed holding sample book 0, a
load-more that succeeds with the raw page of the 20 sample books 0 to 19 leaves has-more
false, because `loadMoreBooksThisWeek` ends by setting has-more to whether 20 books
survived the filter; the same state and page on the trending feed leave has-more true.
In general the next-month, trending and released feeds follow the raw page (has-more
stays true unless the page has fewer than 20 books), and the this-week feed follows the
number of survivors. -/
theorem loadMoreBooksThisWeek_hasMore_counts_survivors :
    ((samplePage 0 20).length = 20 ∧
      hasMore .thisWeek (initialState [] (samplePage 0 1) [] [] []) = true ∧
      hasMore .thisWeek (loadMore .thisWeek none (serverReturning (samplePage 0 20))
        (initialState [] (samplePage 0 1) [] [] [])).state = false ∧
      hasMore .trending (loadMore .trending none (serverReturning (samplePage 0 20))
        (initialState [] [] [] (samplePage 0 1) [])).state = true) ∧
    (∀ (P : List Book) (s : ProviderState),
      (loadMore .thisWeek none (serverReturning P)
          { s with hasMoreWeek := true }).state.hasMoreWeek
        = decide ((P.filter fun b =>
            decide (b._id ∉ s.booksThisWeek.map fun x => x._id)).length = 20)) ∧
    (∀ (userId : Option String) (P : List Book) (s : ProviderState),
      (loadMore .nextMonth userId (serverReturning P)
          { s with hasMoreMonth := true }).state.hasMoreMonth = decide (20 ≤ P.length) ∧
      (loadMore .trending userId (serverReturning P)
          { s with hasMoreTrending := true }).state.hasMoreTrending
        = decide (20 ≤ P.length) ∧
      (loadMore .released userId (serverReturning P)
          { s with hasMoreReleased := true }).state.hasMoreReleased
        = decide (20 ≤ P.length)) := by
  refine ⟨⟨by decide, by decide, by decide, by decide⟩, ?_, ?_⟩
  · intro P s
    exact hasMore_loadMore_of_ok .thisWeek none (serverReturning P)
      { s with hasMoreWeek := true } P rfl rfl
  · intro userId P s
    exact ⟨hasMore_loadMore_of_ok .nextMonth userId (serverReturning P)
        { s with hasMoreMonth := true } P rfl rfl,
      hasMore_loadMore_of_ok .trending userId (serverReturning P)
        { s with hasMoreTrending := true } P rfl rfl,
      hasMore_loadMore_of_ok .released userId (serverReturning P)
        { s with hasMoreReleased := true } P rfl rfl⟩

/-- C9 (as stated, refuted): the recommended feed holds sample book 0 and load-more
succeeds with the 20 sample books 0 to 19; only 19 of them survive de-duplication, yet
has-more stays true. -/
theorem loadMoreRecommended_hasMore_not_survivor_count :
    (survivors (books .recommended (initialState (samplePage 0 1) [] [] [] []))
        (samplePage 0 20)).length = 19 ∧
    hasMore .recommended (loadMore .recommended none (serverReturning (samplePage 0 20))
        (initialState (samplePage 0 1) [] [] [] [])).state = true ∧
    ¬ (hasMore .recommended (loadMore .recommended none (serverReturning (samplePage 0 20))
          (initialState (samplePage 0 1) [] [] [] [])).state = true ↔
        (survivors (books .recommended (initialState (samplePage 0 1) [] [] [] []))
          (samplePage 0 20)).length = 20) := by
  decide

/-- C9 (amended): for the recommended feed, after a load-more that succeeds with page
`P`, has-more is true exactly when the raw page has at least 20 books, however many of
them survive de-duplication against the current sequence. -/
theorem loadMoreRecommended_hasMore_iff_full_page (userId : Option String)
    (server : Server) (s : ProviderState) (P : List Book)
    (hmore : s.hasMoreRecommended = true)
    (hok : server { path := "/api/recommended-for-you", userId := some userId, limit := 20,
                    offset := s.recommendedOffset } = .ok P) :
    (loadMore .recommended userId server s).state.hasMoreRecommended = true ↔
      20 ≤ P.length := by
  have h := hasMore_loadMore_of_ok .recommended userId server s P hmore hok
  simp only [hasMore] at h
  rw [h]
  simp

/-- C9 (amended, instance): the recommended feed holds sample book 0 and receives the
20 sample books 0 to 19. -/
theorem loadMoreRecommended_hasMore_iff_full_page_witness :
    (initialState (samplePage 0 1) [] [] [] []).hasMoreRecommended = true ∧
    serverReturning (samplePage 0 20)
        { path := "/api/recommended-for-you", userId := some none, limit := 20,
          offset := (initialState (samplePage 0 1) [] [] [] []).recommendedOffset }
      = .ok (samplePage 0 20) ∧
    ((loadMore .recommended none (serverReturning (samplePage 0 20))
        (initialState (samplePage 0 1) [] [] [] [])).state.hasMoreRecommended = true ↔
      20 ≤ (samplePage 0 20).length) :=
  ⟨rfl, rfl,
    loadMoreRecommended_hasMore_iff_full_page none (serverReturning (samplePage 0 20))
      (initialState (samplePage 0 1) [] [] [] []) (samplePage 0 20) rfl rfl⟩

/-- C10: for every feed, if the fetch made by load-more fails, and likewise if the fetch
made by the refresh of the recommended feed fails, the operation raises nothing to its
caller and returns the state it was given: every sequence, offset and has-more flag and
the seen-id set are as before. -/
theorem failed_fetch_leaves_state (cat : Category) (userId : Option String)
    (serverL serverR : Server) (s : ProviderState) (eL eR : String)
    (hL : serverL (loadMoreRequest cat userId s) = .error eL)
    (hR : serverR (refreshRequest userId) = .error eR) :
    (loadMore cat userId serverL s).state = s ∧
    (loadMore cat userId serverL s).raised = none ∧
    (refreshRecommendedBooks userId serverR s).state = s ∧
    (refreshRecommendedBooks userId serverR s).raised = none :=
  ⟨(loadMore_of_error cat userId serverL s eL hL).1,
    (loadMore_of_error cat userId serverL s eL hL).2,
    (refresh_of_error userId serverR s eR hR).1,
    (refresh_of_error userId serverR s eR hR).2⟩

/-- C10 (instance): the released feed and the recommended refresh on a backend where
every request fails. -/
theorem failed_fetch_leaves_state_witness :
    serverFailing (loadMoreRequest .released (some "u1")
        { initialState (samplePage 0 2) [] [] [] (samplePage 2 3) with
          fetchedBookIds := ids (samplePage 0 2) }) = .error "Network Error" ∧
    serverFailing (refreshRequest (some "u1")) = .error "Network Error" ∧
    (loadMore .released (some "u1") serverFailing
        { initialState (samplePage 0 2) [] [] [] (samplePage 2 3) with
          fetchedBookIds := ids (samplePage 0 2) }).state
      = { initialState (samplePage 0 2) [] [] [] (samplePage 2 3) with
          fetchedBookIds := ids (samplePage 0 2) } ∧
    (loadMore .released (some "u1") serverFailing
        { initialState (samplePage 0 2) [] [] [] (samplePage 2 3) with
          fetchedBookIds := ids (samplePage 0 2) }).raised = none ∧
    (refreshRecommendedBooks (some "u1") serverFailing
        { initialState (samplePage 0 2) [] [] [] (samplePage 2 3) with
          fetchedBookIds := ids (samplePage 0 2) }).state
      = { initialState (samplePage 0 2) [] [] [] (samplePage 2 3) with
          fetchedBookIds := ids (samplePage 0 2) } ∧
    (refreshRecommendedBooks (some "u1") serverFailing
        { initialState (samplePage 0 2) [] [] [] (samplePage 2 3) with
          fetchedBookIds := ids (samplePage 0 2) }).raised = none :=
  ⟨rfl, rfl,
    failed_fetch_leaves_state .released (some "u1") serverFailing serverFailing
      { initialState (samplePage 0 2) [] [] [] (samplePage 2 3) with
        fetchedBookIds := ids (samplePage 0 2) }
      "Network Error" "Network Error" rfl rfl⟩

/-- C11: for the trending feed in a state with an empty sequence, has-more set and
offset `o` (the claim takes `o = 0`): a load-more that resolves with a page of 20 books
yields sequence length 20, offset `o + 20` and has-more true; a following load-more,
which asks for offset `o + 20` and resolves with fewer than 20 books, `d` of which have
an identifier already in the sequence, yields sequence length `20 + k - d` for page
length `k`, and has-more false.  Distinctness of the identifiers within either page is
not needed. -/
theorem trending_two_loads (server1 server2 : Server) (s : ProviderState) (o d : Nat)
    (P1 P2 : List Book)
    (hempty : s.trendingBooks = []) (hmore : s.hasMoreTrending = true)
    (hoff : s.trendingOffset = o)
    (h1 : server1 { path := "/api/trending-books", userId := none, limit := 20,
                    offset := o } = .ok P1)
    (hlen1 : P1.length = 20)
    (h2 : server2 { path := "/api/trending-books", userId := none, limit := 20,
                    offset := o + 20 } = .ok P2)
    (hlen2 : P2.length < 20)
    (hd : (P2.filter fun b => decide (b._id ∈ P1.map fun x => x._id)).length = d) :
    (loadMore .trending none server1 s).state.trendingBooks.length = 20 ∧
    (loadMore .trending none server1 s).state.trendingOffset = o + 20 ∧
    (loadMore .trending none server1 s).state.hasMoreTrending = true ∧
    (loadMore .trending none server2
        (loadMore .trending none server1 s).state).state.trendingBooks.length
      = 20 + P2.length - d ∧
    (loadMore .trending none server2
        (loadMore .trending none server1 s).state).state.hasMoreTrending = false := by
  have hreq1 : server1 (loadMoreRequest .trending none s) = .ok P1 := by
    simp only [loadMoreRequest, hoff]; exact h1
  have hb1 := books_loadMore_of_ok .trending none server1 s P1 hmore hreq1
  have hm1 := hasMore_loadMore_of_ok .trending none server1 s P1 hmore hreq1
  have ho1 := offset_loadMore_of_ok .trending none server1 s P1 hmore hreq1
  simp only [books, hasMore, offset, hempty, hoff, List.nil_append,
    survivors_nil, hlen1, reduceCtorEq, if_false, le_refl, decide_True] at hb1 hm1 ho1
  have hreq2 : server2 (loadMoreRequest .trending none
      (loadMore .trending none server1 s).state) = .ok P2 := by
    simp only [loadMoreRequest, ho1]; exact h2
  have hb2 := books_loadMore_of_ok .trending none server2 _ P2 hm1 hreq2
  have hm2 := hasMore_loadMore_of_ok .trending none server2 _ P2 hm1 hreq2
  simp only [books, hasMore, hb1, reduceCtorEq, if_false] at hb2 hm2
  have hsplit := survivors_length_add P1 P2
  simp only [ids] at hsplit
  refine ⟨by rw [hb1]; exact hlen1, ho1, hm1, ?_, ?_⟩
  · rw [hb2, List.length_append, hlen1]
    omega
  · rw [hm2]
    exact decide_eq_false (by omega)

/-- C11 (instance): offset 0, a first page of sample books 0 to 19, then a page of the
5 sample books 18 to 22, of which 2 are already held: length 23. -/
theorem trending_two_loads_witness :
    ({ initialState [] [] [] [] [] with trendingOffset := 0 }).trendingBooks = [] ∧
    ({ initialState [] [] [] [] [] with trendingOffset := 0 }).hasMoreTrending = true ∧
    ({ initialState [] [] [] [] [] with trendingOffset := 0 }).trendingOffset = 0 ∧
    serverReturning (samplePage 0 20)
        { path := "/api/trending-books", userId := none, limit := 20, offset := 0 }
      = .ok (samplePage 0 20) ∧
    (samplePage 0 20).length = 20 ∧
    serverReturning (samplePage 18 5)
        { path := "/api/trending-books", userId := none, limit := 20, offset := 0 + 20 }
      = .ok (samplePage 18 5) ∧
    (samplePage 18 5).length < 20 ∧
    ((samplePage 18 5).filter
        fun b => decide (b._id ∈ (samplePage 0 20).map fun x => x._id)).length = 2 ∧
    (loadMore .trending none (serverReturning (samplePage 0 20))
        { initialState [] [] [] [] [] with trendingOffset := 0 }).state.trendingBooks.length
      = 20 ∧
    (loadMore .trending none (serverReturning (samplePage 0 20))
        { initialState [] [] [] [] [] with trendingOffset := 0 }).state.trendingOffset
      = 0 + 20 ∧
    (loadMore .trending none (serverReturning (samplePage 0 20))
        { initialState [] [] [] [] [] with trendingOffset := 0 }).state.hasMoreTrending
      = true ∧
    (loadMore .trending none (serverReturning (samplePage 18 5))
        (loadMore .trending none (serverReturning (samplePage 0 20))
          { initialState [] [] [] [] [] with trendingOffset := 0 }).state
      ).state.trendingBooks.length = 20 + (samplePage 18 5).length - 2 ∧
    (loadMore .trending none (serverReturning (samplePage 18 5))
        (loadMore .trending none (serverReturning (samplePage 0 20))
          { initialState [] [] [] [] [] with trendingOffset := 0 }).state
      ).state.hasMoreTrending = false :=
  ⟨rfl, rfl, rfl, rfl, by decide, rfl, by decide, by decide,
    trending_two_loads (serverReturning (samplePage 0 20)) (serverReturning (samplePage 18 5))
      { initialState [] [] [] [] [] with trendingOffset := 0 } 0 2
      (samplePage 0 20) (samplePage 18 5) rfl rfl rfl rfl (by decide) rfl (by decide)
      (by decide)⟩

/-- C12: for every search query shorter than 3 characters (JavaScript string length),
the effect that handles the query change clears the search results, sets has-more to
false, and produces no effect at all: no search request and no call of the debounced
search.  The debounced function itself, were it to fire with such a query, would clear
the results without a request as well. -/
theorem short_query_clears_results (s : SearchState) (hshort : jsLength s.searchQuery < 3) :
    (onSearchQueryChange s).state.searchResults = [] ∧
    (onSearchQueryChange s).state.hasMoreResults = false ∧
    (onSearchQueryChange s).effects = [] ∧
    ∀ (searchType : String) (api : Api) (s' : SearchState),
      (performSearchNow searchType api s.searchQuery s').state.searchResults = [] ∧
      (performSearchNow searchType api s.searchQuery s').state.hasMoreResults = false ∧
      (performSearchNow searchType api s.searchQuery s').effects = [] := by
  have htrim : jsLength (jsTrim s.searchQuery) < 3 :=
    lt_of_le_of_lt (jsLength_jsTrim_le s.searchQuery) hshort
  have hnot : ¬ jsLength (jsTrim s.searchQuery) ≥ 3 := by omega
  refine ⟨?_, ?_, ?_, ?_⟩
  · simp [onSearchQueryChange, hnot]
  · simp [onSearchQueryChange, hnot]
  · simp [onSearchQueryChange, hnot]
  · intro searchType api s'
    rw [performSearchNow_of_short searchType api s.searchQuery s' htrim]
    exact ⟨rfl, rfl, rfl⟩

/-- C12 (instance): the query `ab` typed over a screen that shows two results. -/
theorem short_query_clears_results_witness :
    jsLength (searchStateWith "ab" (samplePage 0 2)).searchQuery < 3 ∧
    (onSearchQueryChange (searchStateWith "ab" (samplePage 0 2))).state.searchResults = [] ∧
    (onSearchQueryChange (searchStateWith "ab" (samplePage 0 2))).state.hasMoreResults
      = false ∧
    (onSearchQueryChange (searchStateWith "ab" (samplePage 0 2))).effects = [] ∧
    ∀ (searchType : String) (api : Api) (s' : SearchState),
      (performSearchNow searchType api
          (searchStateWith "ab" (samplePage 0 2)).searchQuery s').state.searchResults = [] ∧
      (performSearchNow searchType api
          (searchStateWith "ab" (samplePage 0 2)).searchQuery s').state.hasMoreResults
        = false ∧
      (performSearchNow searchType api
          (searchStateWith "ab" (samplePage 0 2)).searchQuery s').effects = [] :=
  ⟨by decide, short_query_clears_results (searchStateWith "ab" (samplePage 0 2)) (by decide)⟩

/-- C13 (as stated, refuted): the query `ab ` has length 3, but handling it takes the
clear-results branch and hands nothing to the debounced search, because the test is made
on the trimmed query. -/
theorem padded_query_is_not_searched :
    jsLength (searchStateWith "ab " (samplePage 0 2)).searchQuery ≥ 3 ∧
    (onSearchQueryChange (searchStateWith "ab " (samplePage 0 2))).effects = [] ∧
    (onSearchQueryChange (searchStateWith "ab " (samplePage 0 2))).state.searchResults = [] ∧
    (onSearchQueryChange (searchStateWith "ab " (samplePage 0 2))).state.hasMoreResults
      = false := by
  decide

/-- C13 (amended): for every search query whose whitespace-trimmed length is at least 3,
handling the query change leaves the state as it is (it does not take the clear-results
branch) and hands the query, untrimmed, to the debounced search; when that fires, in
whatever state, the first thing it does is to send a search request for that query with
limit 20, offset 0 and the search type of the time of the call. -/
theorem long_query_is_searched (s : SearchState)
    (hlong : 3 ≤ jsLength (jsTrim s.searchQuery)) :
    (onSearchQueryChange s).state = s ∧
    (onSearchQueryChange s).effects = [.debounced s.searchQuery s.searchType] ∧
    ∀ (api : Api) (s' : SearchState),
      (performSearchNow s.searchType api s.searchQuery s').effects.head?
        = some (.request (.search s.searchQuery 20 0 s.searchType)) := by
  have hge : jsLength (jsTrim s.searchQuery) ≥ 3 := hlong
  refine ⟨?_, ?_, ?_⟩
  · simp [onSearchQueryChange, hge]
  · simp [onSearchQueryChange, hge]
  · intro api s'
    exact performSearchNow_first_effect s.searchType api s.searchQuery s' hlong

/-- C13 (amended, instance): the query ` abc ` typed over a screen that shows two
results. -/
theorem long_query_is_searched_witness :
    3 ≤ jsLength (jsTrim (searchStateWith " abc " (samplePage 0 2)).searchQuery) ∧
    (onSearchQueryChange (searchStateWith " abc " (samplePage 0 2))).state
      = searchStateWith " abc " (samplePage 0 2) ∧
    (onSearchQueryChange (searchStateWith " abc " (samplePage 0 2))).effects
      = [.debounced (searchStateWith " abc " (samplePage 0 2)).searchQuery
          (searchStateWith " abc " (samplePage 0 2)).searchType] ∧
    ∀ (api : Api) (s' : SearchState),
      (performSearchNow (searchStateWith " abc " (samplePage 0 2)).searchType api
          (searchStateWith " abc " (samplePage 0 2)).searchQuery s').effects.head?
        = some (.request (.search (searchStateWith " abc " (samplePage 0 2)).searchQuery
            20 0 (searchStateWith " abc " (samplePage 0 2)).searchType)) :=
  ⟨by decide, long_query_is_searched (searchStateWith " abc " (samplePage 0 2)) (by decide)⟩

/-- C14: for every search state with has-more set and no load in flight,
`loadMoreResults` sends one search request, for the current query with limit 20 at
offset `page * 20`; when it succeeds with page `P` the results become the current
results followed by the books of `P` whose identifier occurs nowhere in the current
results, has-more becomes true exactly when 20 books survived, and the page counter
goes up by 1. -/
theorem loadMoreResults_success (api : Api) (s : SearchState) (P : List Book)
    (hmore : s.hasMoreResults = true) (hidle : s.isLoadingMore = false)
    (hok : api.search s.searchQuery 20 (s.page * 20) s.searchType = .ok P) :
    (loadMoreResults api s).effects
      = [.request (.search s.searchQuery 20 (s.page * 20) s.searchType)] ∧
    (loadMoreResults api s).state.searchResults
      = s.searchResults
        ++ P.filter (fun b => decide (b._id ∉ s.searchResults.map fun x => x._id)) ∧
    ((loadMoreResults api s).state.hasMoreResults = true ↔
      (P.filter (fun b => decide (b._id ∉ s.searchResults.map fun x => x._id))).length
        = 20) ∧
    (loadMoreResults api s).state.page = s.page + 1 := by
  rw [loadMoreResults_of_ok api s P hmore hidle hok]
  refine ⟨rfl, rfl, ?_, rfl⟩
  simp [survivors, ids]

/-- C14 (instance): 25 results shown with the page counter at 1, so offset 20, and a
page of 5 books that repeats sample book 3 of the results already shown. -/
theorem loadMoreResults_success_witness :
    (searchStateWith "abc" (samplePage 0 25)).hasMoreResults = true ∧
    (searchStateWith "abc" (samplePage 0 25)).isLoadingMore = false ∧
    (apiReturning (sampleBook 3 :: samplePage 25 4) "f1" []).search
        (searchStateWith "abc" (samplePage 0 25)).searchQuery 20
        ((searchStateWith "abc" (samplePage 0 25)).page * 20)
        (searchStateWith "abc" (samplePage 0 25)).searchType
      = .ok (sampleBook 3 :: samplePage 25 4) ∧
    (loadMoreResults (apiReturning (sampleBook 3 :: samplePage 25 4) "f1" [])
        (searchStateWith "abc" (samplePage 0 25))).state.searchResults = samplePage 0 29 :=
  ⟨rfl, rfl, rfl,
    ((loadMoreResults_success (apiReturning (sampleBook 3 :: samplePage 25 4) "f1" [])
        (searchStateWith "abc" (samplePage 0 25)) (sampleBook 3 :: samplePage 25 4)
        rfl rfl rfl).2.1).trans (by decide)⟩

/-- C15 (as stated, refuted): an initial search for `abc` that succeeds with a page
listing one book twice stores that book twice: `filterDuplicates` is applied with an
empty list of existing results and removes nothing. -/
theorem initial_search_keeps_page_repeats :
    3 ≤ jsLength (jsTrim "abc") ∧
    (performSearchNow "general" (apiReturning [sampleBook 0, sampleBook 0] "f1" []) "abc"
        (searchStateWith "abc" [])).state.searchResults = [sampleBook 0, sampleBook 0] ∧
    ¬ (ids (performSearchNow "general" (apiReturning [sampleBook 0, sampleBook 0] "f1" [])
        "abc" (searchStateWith "abc" [])).state.searchResults).Nodup := by
  decide

/-- C15 (amended): an initial search with a query of trimmed length at least 3 that
succeeds with page `P` sends one request, for offset 0 with limit 20, replaces the results
with `P` as returned (so the stored results have no duplicate identifiers whenever `P`
has none), sets has-more to true exactly when the stored length is 20, and resets the
page counter to 1. -/
theorem initial_search_success (searchType : String) (api : Api) (query : String)
    (s : SearchState) (P : List Book)
    (hlong : 3 ≤ jsLength (jsTrim query))
    (hok : api.search query 20 0 searchType = .ok P) :
    (performSearchNow searchType api query s).effects
      = [.request (.search query 20 0 searchType)] ∧
    (performSearchNow searchType api query s).state.searchResults = P ∧
    ((ids P).Nodup →
      (ids (performSearchNow searchType api query s).state.searchResults).Nodup) ∧
    ((performSearchNow searchType api query s).state.hasMoreResults = true ↔
      (performSearchNow searchType api query s).state.searchResults.length = 20) ∧
    (performSearchNow searchType api query s).state.page = 1 := by
  rw [performSearchNow_of_ok searchType api query s P hlong hok]
  refine ⟨rfl, rfl, fun h => h, ?_, rfl⟩
  simp

/-- C15 (amended, instance): the query `abc` answered with the 20 sample books 0 to
19, on a screen that was at page 4. -/
theorem initial_search_success_witness :
    3 ≤ jsLength (jsTrim "abc") ∧
    (apiReturning (samplePage 0 20) "f1" []).search "abc" 20 0 "genre"
      = .ok (samplePage 0 20) ∧
    (performSearchNow "genre" (apiReturning (samplePage 0 20) "f1" []) "abc"
        { searchStateWith "abc" (samplePage 40 3) with page := 4 }).state.searchResults
      = samplePage 0 20 ∧
    (performSearchNow "genre" (apiReturning (samplePage 0 20) "f1" []) "abc"
        { searchStateWith "abc" (samplePage 40 3) with page := 4 }).state.page = 1 :=
  ⟨by decide, rfl,
    (initial_search_success "genre" (apiReturning (samplePage 0 20) "f1" []) "abc"
      { searchStateWith "abc" (samplePage 40 3) with page := 4 } (samplePage 0 20)
      (by decide) rfl).2.1,
    (initial_search_success "genre" (apiReturning (samplePage 0 20) "f1" []) "abc"
      { searchStateWith "abc" (samplePage 40 3) with page := 4 } (samplePage 0 20)
      (by decide) rfl).2.2.2.2⟩

/-- C16: for every favorites sequence `F`, user and book, when the save call of
`addFavoritedBook` answers the favorite identifier `f` and the delete call of the
`removeFavoritedBookFromState(f)` that follows succeeds, the favorites sequence after both
calls equals `F`, whether or not the book lookup of the add found the book.  The
identifier `f` is issued by the server for the new record, so as the data model has it no
entry of `F` carries it; that is the hypothesis `hfresh`. -/
theorem add_then_remove_restores (apiAdd apiRemove : Api) (userId : Option String)
    (bookId f : String) (F : List FavoritedBook)
    (hsave : apiAdd.saveFavorite userId bookId = .ok f)
    (hdel : apiRemove.deleteFavorite f = .ok ())
    (hfresh : f ∉ favoritedIds F) :
    (removeFavoritedBookFromState apiRemove f
        (addFavoritedBook apiAdd userId bookId F).state).state = F := by
  rw [removeFavoritedBookFromState_of_ok apiRemove f _ hdel]
  rcases addFavoritedBook_state_cases apiAdd userId bookId F f hsave with h | ⟨b, h⟩
  · rw [h]
    exact filter_favoritedId_of_fresh F f hfresh
  · rw [h]
    simp only [List.filter_append, filter_favoritedId_of_fresh F f hfresh]
    simp

/-- C16 (instance): one older favorite with identifier `f0`; the add of sample book 1
receives `f1`. -/
theorem add_then_remove_restores_witness :
    (apiReturning [sampleBook 1] "f1" []).saveFavorite (some "u1") (sampleBook 1)._id
      = .ok "f1" ∧
    (apiReturning [sampleBook 1] "f1" []).deleteFavorite "f1" = .ok () ∧
    "f1" ∉ favoritedIds [sampleFavorite 0 "f0"] ∧
    (removeFavoritedBookFromState (apiReturning [sampleBook 1] "f1" []) "f1"
        (addFavoritedBook (apiReturning [sampleBook 1] "f1" []) (some "u1")
          (sampleBook 1)._id [sampleFavorite 0 "f0"]).state).state
      = [sampleFavorite 0 "f0"] :=
  ⟨rfl, rfl, by decide,
    add_then_remove_restores (apiReturning [sampleBook 1] "f1" [])
      (apiReturning [sampleBook 1] "f1" []) (some "u1") (sampleBook 1)._id "f1"
      [sampleFavorite 0 "f0"] rfl rfl (by decide)⟩

/-- C17: when the save call answers the favorite identifier `f` and the book lookup
answers a list whose first record is `b`, `addFavoritedBook` makes the favorites sequence
the previous sequence followed by exactly one new entry, which has the fields of `b` and
`favoritedId = f`; the previous entries are unchanged and keep their positions. -/
theorem addFavoritedBook_success (api : Api) (userId : Option String) (bookId f : String)
    (F : List FavoritedBook) (b : Book) (rest : List Book)
    (hsave : api.saveFavorite userId bookId = .ok f)
    (hlook : api.booksByIds [bookId] = .ok (b :: rest)) :
    (addFavoritedBook api userId bookId F).state
      = F ++ [{ toBook := b, favoritedId := f }] ∧
    (addFavoritedBook api userId bookId F).state.length = F.length + 1 ∧
    (addFavoritedBook api userId bookId F).state.take F.length = F := by
  rw [addFavoritedBook_of_ok api userId bookId F f b rest hsave hlook]
  simp

/-- C17 (instance): one older favorite; sample book 1 is added and receives `f1`. -/
theorem addFavoritedBook_success_witness :
    (apiReturning [sampleBook 1] "f1" []).saveFavorite (some "u1") (sampleBook 1)._id
      = .ok "f1" ∧
    (apiReturning [sampleBook 1] "f1" []).booksByIds [(sampleBook 1)._id]
      = .ok (sampleBook 1 :: []) ∧
    (addFavoritedBook (apiReturning [sampleBook 1] "f1" []) (some "u1") (sampleBook 1)._id
        [sampleFavorite 0 "f0"]).state
      = [sampleFavorite 0 "f0"] ++ [{ toBook := sampleBook 1, favoritedId := "f1" }] :=
  ⟨rfl, rfl,
    (addFavoritedBook_success (apiReturning [sampleBook 1] "f1" []) (some "u1")
      (sampleBook 1)._id "f1" [sampleFavorite 0 "f0"] (sampleBook 1) [] rfl rfl).1⟩

/-- C18: if the save call of `addFavoritedBook` fails, or its book lookup yields no
book (the request fails, which `getBooksByIds` turns into the empty array, or the answer
is empty), or the delete call of `removeFavoritedBookFromState` fails, then the operation
raises nothing to its caller and the favorites sequence is unchanged. -/
theorem favorites_unchanged_on_failure (apiSave apiLookup apiDelete : Api)
    (userId : Option String) (bookId favoriteId : String) (F : List FavoritedBook)
    (eS eD : String)
    (hsave : apiSave.saveFavorite userId bookId = .error eS)
    (hlook : (getBooksByIds apiLookup (some [bookId])).result = .ok [])
    (hdel : apiDelete.deleteFavorite favoriteId = .error eD) :
    ((addFavoritedBook apiSave userId bookId F).state = F ∧
      (addFavoritedBook apiSave userId bookId F).raised = none) ∧
    ((addFavoritedBook apiLookup userId bookId F).state = F ∧
      (addFavoritedBook apiLookup userId bookId F).raised = none) ∧
    ((removeFavoritedBookFromState apiDelete favoriteId F).state = F ∧
      (removeFavoritedBookFromState apiDelete favoriteId F).raised = none) :=
  ⟨addFavoritedBook_of_save_error apiSave userId bookId F eS hsave,
    ⟨addFavoritedBook_of_no_book apiLookup userId bookId F hlook,
      addFavoritedBook_raised apiLookup userId bookId F⟩,
    removeFavoritedBookFromState_of_error apiDelete favoriteId F eD hdel⟩

/-- C18 (instance): a backend where every request fails; a backend where only the book
lookup fails; two favorites held. -/
theorem favorites_unchanged_on_failure_witness :
    apiFailing.saveFavorite (some "u1") "b9" = .error "Network Error" ∧
    (getBooksByIds
      { apiReturning [] "f9" [] with booksByIds := fun _ => .error "Network Error" }
      (some ["b9"])).result = .ok [] ∧
    apiFailing.deleteFavorite "f0" = .error "Network Error" ∧
    ((addFavoritedBook apiFailing (some "u1") "b9"
        [sampleFavorite 0 "f0", sampleFavorite 1 "f1"]).state
        = [sampleFavorite 0 "f0", sampleFavorite 1 "f1"] ∧
      (addFavoritedBook apiFailing (some "u1") "b9"
        [sampleFavorite 0 "f0", sampleFavorite 1 "f1"]).raised = none) ∧
    ((addFavoritedBook
        { apiReturning [] "f9" [] with booksByIds := fun _ => .error "Network Error" }
        (some "u1") "b9" [sampleFavorite 0 "f0", sampleFavorite 1 "f1"]).state
        = [sampleFavorite 0 "f0", sampleFavorite 1 "f1"] ∧
      (addFavoritedBook
        { apiReturning [] "f9" [] with booksByIds := fun _ => .error "Network Error" }
        (some "u1") "b9" [sampleFavorite 0 "f0", sampleFavorite 1 "f1"]).raised = none) ∧
    ((removeFavoritedBookFromState apiFailing "f0"
        [sampleFavorite 0 "f0", sampleFavorite 1 "f1"]).state
        = [sampleFavorite 0 "f0", sampleFavorite 1 "f1"] ∧
      (removeFavoritedBookFromState apiFailing "f0"
        [sampleFavorite 0 "f0", sampleFavorite 1 "f1"]).raised = none) :=
  ⟨rfl, rfl, rfl,
    favorites_unchanged_on_failure apiFailing
      { apiReturning [] "f9" [] with booksByIds := fun _ => .error "Network Error" }
      apiFailing (some "u1") "b9" "f0" [sampleFavorite 0 "f0", sampleFavorite 1 "f1"]
      "Network Error" "Network Error" rfl rfl rfl⟩

/-- C19: when the delete call succeeds, `removeFavoritedBookFromState(f)` makes the
favorites sequence the previous sequence with every entry whose `favoritedId` equals `f`
removed and all other entries kept in their original relative order. -/
theorem removeFavoritedBookFromState_success (api : Api) (f : String)
    (F : List FavoritedBook) (hdel : api.deleteFavorite f = .ok ()) :
    (removeFavoritedBookFromState api f F).state
      = F.filter (fun r => decide (r.favoritedId ≠ f)) := by
  rw [removeFavoritedBookFromState_of_ok api f F hdel]
  apply List.filter_congr
  intro r _
  by_cases h : r.favoritedId = f <;> simp [h]

/-- C19 (instance): three favorites, the middle one is removed. -/
theorem removeFavoritedBookFromState_success_witness :
    (apiReturning [] "f9" []).deleteFavorite "f1" = .ok () ∧
    (removeFavoritedBookFromState (apiReturning [] "f9" []) "f1"
        [sampleFavorite 0 "f0", sampleFavorite 1 "f1", sampleFavorite 2 "f2"]).state
      = [sampleFavorite 0 "f0", sampleFavorite 2 "f2"] :=
  ⟨rfl,
    (removeFavoritedBookFromState_success (apiReturning [] "f9" []) "f1"
      [sampleFavorite 0 "f0", sampleFavorite 1 "f1", sampleFavorite 2 "f2"] rfl).trans
      (by decide)⟩

/-- C20: `updateFavoriteGenres(genres)` sends exactly one request, the update carrying
the new genres together with the identifiers of the current local favorite authors in
their current order; the local favorite genres become the new list if that request
succeeds and stay as they were if it fails; the local favorite authors are never
changed, and nothing is raised to the caller. -/
theorem updateFavoriteGenres_write_through (api : Api) (genres : List String)
    (s : UserState) :
    requestsOf (updateFavoriteGenres api genres s).effects
      = [.patchUser s.userId genres (s.favoriteAuthors.map fun a => a._id)] ∧
    (updateFavoriteGenres api genres s).state.favoriteGenres
      = (if succeeded (api.patchUser s.userId genres (s.favoriteAuthors.map fun a => a._id))
          then genres else s.favoriteGenres) ∧
    (updateFavoriteGenres api genres s).state.favoriteAuthors = s.favoriteAuthors ∧
    (updateFavoriteGenres api genres s).raised = none := by
  simp only [updateFavoriteGenres, updateFavoritesInDB]
  cases api.patchUser s.userId genres (s.favoriteAuthors.map fun a => a._id) <;>
    simp [requestsOf, succeeded]

/-- C21 (as stated, refuted): on a backend where the update request fails,
`updateFavoriteAuthors([])` leaves the two local favorite authors in place instead of
clearing the list. -/
theorem updateFavoriteAuthors_nil_keeps_authors_on_failure :
    (updateFavoriteAuthors apiFailing [] sampleUser).state.favoriteAuthors
      = [{ _id := "a1", name := "Ann" }, { _id := "a2", name := "Bob" }] ∧
    (updateFavoriteAuthors apiFailing [] sampleUser).state.favoriteAuthors ≠ [] := by
  decide

/-- C21 (amended): for every user-profile state, `updateFavoriteAuthors([])` sends
exactly one request, the update carrying the current favorite genres and an empty
author-id list, and so makes no author lookup; afterwards the local favorite-author
list is empty if the update request succeeded and is as it was if the request failed;
nothing is raised to the caller. -/
theorem updateFavoriteAuthors_nil (api : Api) (s : UserState) :
    requestsOf (updateFavoriteAuthors api [] s).effects
      = [.patchUser s.userId s.favoriteGenres []] ∧
    (updateFavoriteAuthors api [] s).state.favoriteAuthors
      = (if succeeded (api.patchUser s.userId s.favoriteGenres []) then []
          else s.favoriteAuthors) ∧
    (updateFavoriteAuthors api [] s).raised = none := by
  simp only [updateFavoriteAuthors, updateFavoritesInDB]
  cases api.patchUser s.userId s.favoriteGenres [] <;> simp [requestsOf, succeeded]

/-- C22 (the code at the failing input): with a non-empty author-id list, the local
favorite-author list is left as it was when the update request fails, but when the
update succeeds and the author lookup request fails, `getAuthorsByIds` answers the
empty array and the local list is replaced by it.  Here two local authors are lost. -/
theorem updateFavoriteAuthors_lookup_failure_clears_authors :
    (∀ (api : Api) (a : String) (t : List String) (s : UserState),
      (updateFavoriteAuthors api (a :: t) s).state.favoriteAuthors =
        match api.patchUser s.userId s.favoriteGenres (a :: t) with
        | .error _ => s.favoriteAuthors
        | .ok _ =>
          match api.authorsByIds (String.intercalate "," (a :: t)) with
          | .ok authors => authors
          | .error _ => []) ∧
    sampleUser.favoriteAuthors
      = [{ _id := "a1", name := "Ann" }, { _id := "a2", name := "Bob" }] ∧
    (updateFavoriteAuthors apiAuthorLookupFailing ["a1", "a3"] sampleUser
      ).state.favoriteAuthors = [] ∧
    requestsOf (updateFavoriteAuthors apiAuthorLookupFailing ["a1", "a3"] sampleUser).effects
      = [.patchUser (some "u1") ["Fantasy"] ["a1", "a3"], .authorsByIds "a1,a3"] := by
  refine ⟨?_, by decide, by decide, by decide⟩
  intro api a t s
  simp only [updateFavoriteAuthors, updateFavoritesInDB, getAuthorsByIds]
  cases api.patchUser s.userId s.favoriteGenres (a :: t) with
  | error e => rfl
  | ok u =>
    cases api.authorsByIds (String.intercalate "," (a :: t)) <;> simp

/-- C23: `getBooksByIds` never raises; for an argument that is not an array and for the
empty array it sends no request and resolves with the empty array; for a non-empty array
it sends the lookup and resolves with the server's array when the request succeeds and
with the empty array when it fails. -/
theorem getBooksByIds_total (api : Api) :
    (∀ arg, ∃ books, (getBooksByIds api arg).result = .ok books) ∧
    ((getBooksByIds api none).result = .ok [] ∧
      requestsOf (getBooksByIds api none).effects = []) ∧
    ((getBooksByIds api (some [])).result = .ok [] ∧
      requestsOf (getBooksByIds api (some [])).effects = []) ∧
    ∀ (a : String) (t : List String),
      requestsOf (getBooksByIds api (some (a :: t))).effects = [.booksByIds (a :: t)] ∧
      (getBooksByIds api (some (a :: t))).result =
        match api.booksByIds (a :: t) with
        | .ok data => .ok data
        | .error _ => .ok [] := by
  refine ⟨?_, ⟨rfl, rfl⟩, ⟨rfl, rfl⟩, ?_⟩
  · intro arg
    cases arg with
    | none => exact ⟨[], rfl⟩
    | some l =>
      cases l with
      | nil => exact ⟨[], rfl⟩
      | cons a t =>
        simp only [getBooksByIds, List.length_cons, Nat.add_one_ne_zero, if_false]
        cases api.booksByIds (a :: t) with
        | error e => exact ⟨[], rfl⟩
        | ok d => exact ⟨d, rfl⟩
  · intro a t
    simp only [getBooksByIds, List.length_cons, Nat.add_one_ne_zero, if_false]
    cases api.booksByIds (a :: t) <;> exact ⟨rfl, rfl⟩

/-- C26 (the code at the failing input): the result of `filterOutDuplicateBooksGlobally`
depends on the seen-id set only, and that set starts empty and is never filled from the
category sequences.  On the first render with sample books 0 and 1 recommended and
sample book 5 trending, the input of sample books 0, 5 and 7 comes back whole, although
books 0 and 5 are held in category sequences. -/
theorem filterOutDuplicateBooksGlobally_ignores_sequences :
    (∀ (s : ProviderState) (newBooks : List Book),
      (filterOutDuplicateBooksGlobally s newBooks).1
        = newBooks.filter fun b => decide (b._id ∉ s.fetchedBookIds)) ∧
    (initialState (samplePage 0 2) [] [] [sampleBook 5] []).fetchedBookIds = [] ∧
    (filterOutDuplicateBooksGlobally (initialState (samplePage 0 2) [] [] [sampleBook 5] [])
        [sampleBook 0, sampleBook 5, sampleBook 7]).1
      = [sampleBook 0, sampleBook 5, sampleBook 7] ∧
    (sampleBook 0)._id ∈
      ids (books .recommended (initialState (samplePage 0 2) [] [] [sampleBook 5] [])) ∧
    (sampleBook 5)._id ∈
      ids (books .trending (initialState (samplePage 0 2) [] [] [sampleBook 5] [])) := by
  refine ⟨filterOutDuplicateBooksGlobally_fst, rfl, ?_, ?_, ?_⟩ <;> decide

/-- C29 (as stated, refuted): after one refresh with the page of sample books 0 to 2, two
further consecutive successful refreshes that receive that same page yield the same
feed, the empty one. -/
theorem consecutive_refreshes_can_agree :
    (refreshRecommendedBooks none (serverReturning (samplePage 0 3))
        (refreshRecommendedBooks none (serverReturning (samplePage 0 3))
          (initialState [] [] [] [] [])).state).state.recommendedBooks = [] ∧
    (refreshRecommendedBooks none (serverReturning (samplePage 0 3))
        (refreshRecommendedBooks none (serverReturning (samplePage 0 3))
          (refreshRecommendedBooks none (serverReturning (samplePage 0 3))
            (initialState [] [] [] [] [])).state).state).state.recommendedBooks
      = (refreshRecommendedBooks none (serverReturning (samplePage 0 3))
          (refreshRecommendedBooks none (serverReturning (samplePage 0 3))
            (initialState [] [] [] [] [])).state).state.recommendedBooks := by
  decide

/-- C29 (amended): for two consecutive successful refreshes of the recommended feed that
receive the same page, every book of the page is in the seen-id set after the first
refresh, so after the second refresh the recommended sequence is empty and has-more is
false; the two feeds differ whenever the first refresh stored at least one book. -/
theorem second_refresh_is_empty (userId : Option String) (server1 server2 : Server)
    (s : ProviderState) (P : List Book)
    (hok1 : server1 (refreshRequest userId) = .ok P)
    (hok2 : server2 (refreshRequest userId) = .ok P) :
    (∀ b ∈ P, b._id ∈ (refreshRecommendedBooks userId server1 s).state.fetchedBookIds) ∧
    (refreshRecommendedBooks userId server2
        (refreshRecommendedBooks userId server1 s).state).state.recommendedBooks = [] ∧
    (refreshRecommendedBooks userId server2
        (refreshRecommendedBooks userId server1 s).state).state.hasMoreRecommended = false ∧
    ((refreshRecommendedBooks userId server1 s).state.recommendedBooks ≠ [] →
      (refreshRecommendedBooks userId server2
          (refreshRecommendedBooks userId server1 s).state).state.recommendedBooks
        ≠ (refreshRecommendedBooks userId server1 s).state.recommendedBooks) := by
  have h2 := refresh_twice userId server1 server2 s P hok1 hok2
  refine ⟨fun b hb => seen_after_refresh userId server1 s P hok1 b hb, h2.1, h2.2, ?_⟩
  intro hne heq
  exact hne (heq ▸ h2.1)

/-- C29 (amended, instance): two refreshes from the first render, both answered with
the 20 sample books 0 to 19: the first stores 20 books, the second none. -/
theorem second_refresh_is_empty_witness :
    serverReturning (samplePage 0 20) (refreshRequest none) = .ok (samplePage 0 20) ∧
    (refreshRecommendedBooks none (serverReturning (samplePage 0 20))
        (initialState [] [] [] [] [])).state.recommendedBooks.length = 20 ∧
    (refreshRecommendedBooks none (serverReturning (samplePage 0 20))
        (refreshRecommendedBooks none (serverReturning (samplePage 0 20))
          (initialState [] [] [] [] [])).state).state.recommendedBooks = [] ∧
    (refreshRecommendedBooks none (serverReturning (samplePage 0 20))
        (refreshRecommendedBooks none (serverReturning (samplePage 0 20))
          (initialState [] [] [] [] [])).state).state.hasMoreRecommended = false :=
  ⟨rfl, by decide,
    (second_refresh_is_empty none (serverReturning (samplePage 0 20))
      (serverReturning (samplePage 0 20)) (initialState [] [] [] [] []) (samplePage 0 20)
      rfl rfl).2.1,
    (second_refresh_is_empty none (serverReturning (samplePage 0 20))
      (serverReturning (samplePage 0 20)) (initialState [] [] [] [] []) (samplePage 0 20)
      rfl rfl).2.2.1⟩

/-- C24 (the code at the failing input): every configuration that a client function
writes out carries the api-key header, but none sets a timeout; the only configuration
with `timeout: 30000` is the one built by `getAxiosConfig`, which no function uses.
For instance the search request is configured with its four query parameters and the
two headers only. -/
theorem requests_carry_api_key_but_no_timeout :
    (∀ (apiKey : String) (f : ClientFunction),
      ("api-key", apiKey) ∈ (requestConfig apiKey f).headers ∧
      (requestConfig apiKey f).timeout = none) ∧
    (∀ apiKey : String, (getAxiosConfig apiKey).timeout = some 30000 ∧
      ∀ f, requestConfig apiKey f ≠ getAxiosConfig apiKey) ∧
    requestConfig "secret" .searchBooks
      = { params := ["query", "limit", "offset", "searchType"],
          headers := [("api-key", "secret"), ("Content-Type", "application/json")],
          timeout := none } := by
  refine ⟨?_, ?_, rfl⟩
  · intro apiKey f
    cases f <;> simp [requestConfig]
  · intro apiKey
    refine ⟨rfl, ?_⟩
    intro f h
    have ht := congrArg AxiosConfig.timeout h
    cases f <;> simp [requestConfig, getAxiosConfig] at ht

/-- C25 (the code at the failing input): whatever the backend answers, a toggle that
is not blocked by the debouncing flag itself leaves `isFavorited` at the flipped value,
because the store operations catch their own errors and never raise into the `catch`
block of `handleFavoriteToggle`.  With every request failing, the flag of a book that
was not a favorite ends up true while the favorites stay empty, and the flag of a book
that was a favorite ends up false while the favorites still hold it; in both cases the
favorites sequence is not set, so the effect that derives the flag from it does not run
and the flag stays flipped after the next render. -/
theorem handleFavoriteToggle_never_reverts :
    (∀ (api : Api) (userId : Option String) (book : Book) (favs : List FavoritedBook)
        (st : DetailState),
      (handleFavoriteToggle api userId book favs st).screen.isFavorited
        = if st.debouncing then st.isFavorited else !st.isFavorited) ∧
    ((handleFavoriteToggle apiFailing (some "u1") (sampleBook 0) []
        { isFavorited := false, debouncing := false }).screen.isFavorited = true ∧
      (handleFavoriteToggle apiFailing (some "u1") (sampleBook 0) []
        { isFavorited := false, debouncing := false }).favoritedBooks = [] ∧
      requestsOf (handleFavoriteToggle apiFailing (some "u1") (sampleBook 0) []
        { isFavorited := false, debouncing := false }).effects
        = [.saveFavorite (some "u1") (sampleBook 0)._id]) ∧
    ((handleFavoriteToggle apiFailing (some "u1") (sampleBook 0) [sampleFavorite 0 "f0"]
        { isFavorited := true, debouncing := false }).screen.isFavorited = false ∧
      (handleFavoriteToggle apiFailing (some "u1") (sampleBook 0) [sampleFavorite 0 "f0"]
        { isFavorited := true, debouncing := false }).favoritedBooks
        = [sampleFavorite 0 "f0"] ∧
      requestsOf (handleFavoriteToggle apiFailing (some "u1") (sampleBook 0)
        [sampleFavorite 0 "f0"] { isFavorited := true, debouncing := false }).effects
        = [.deleteFavorite "f0"]) ∧
    ((handleFavoriteToggleSettled apiFailing (some "u1") (sampleBook 0) []
        { isFavorited := false, debouncing := false }).screen.isFavorited = true ∧
      (handleFavoriteToggleSettled apiFailing (some "u1") (sampleBook 0)
        [sampleFavorite 0 "f0"]
        { isFavorited := true, debouncing := false }).screen.isFavorited = false) := by
  refine ⟨?_, ⟨by decide, by decide, by decide⟩, ⟨by decide, by decide, by decide⟩,
    ⟨by decide, by decide⟩⟩
  intro api userId book favs st
  have hadd := addFavoritedBook_raised api userId book._id favs
  have hrem : ∀ f, (removeFavoritedBookFromState api f favs).raised = none := by
    intro f
    simp only [removeFavoritedBookFromState]
    split <;> rfl
  cases hdeb : st.debouncing with
  | true => simp [handleFavoriteToggle, hdeb]
  | false =>
    cases hfav : st.isFavorited with
    | false => simp [handleFavoriteToggle, hdeb, hfav, hadd]
    | true =>
      cases hfind : favs.find? fun fav => fav._id == book._id with
      | none => simp [handleFavoriteToggle, hdeb, hfav, hfind]
      | some favoriteBook =>
        simp [handleFavoriteToggle, hdeb, hfav, hfind, hrem favoriteBook.favoritedId]

/-- C27: for every array of items and every key field, `removeDuplicates` returns an
array in which no two items have the same value of the key, every returned item is an
item of the input, and every key value that occurs in the input occurs in the result. -/
theorem removeDuplicates_spec {κ α : Type} [DecidableEq κ] (arr : List α) (key : α → κ) :
    ((removeDuplicates arr key).map key).Nodup ∧
    (∀ item ∈ removeDuplicates arr key, item ∈ arr) ∧
    (∀ item ∈ arr, key item ∈ (removeDuplicates arr key).map key) := by
  refine ⟨?_, ?_, ?_⟩
  · rw [removeDuplicates_keys]
    exact nodup_keys_foldl_jsMapSet _ [] List.nodup_nil
  · intro item hitem
    obtain ⟨e, he, hee⟩ := List.mem_map.mp hitem
    rcases mem_foldl_jsMapSet _ [] e he with h | h
    · simp at h
    · obtain ⟨item0, hin, hitem0⟩ := List.mem_map.mp h
      rw [← hee, ← hitem0]
      exact hin
  · intro item hitem
    rw [removeDuplicates_keys]
    apply keys_foldl_jsMapSet_of_mem
    right
    rw [List.map_map]
    exact List.mem_map.mpr ⟨item, hitem, rfl⟩

/-- C28: `formatDate` returns `Invalid Date` for a missing and for an empty date string;
for every date string `YYYY-MM-DD` with month 01 to 12, alone or followed by `T` and a
time part, it returns the English month name (January for 01 up to December for 12),
the day without leading zeros, a comma and the year as written; `2025-03-07` gives
`March 7, 2025`. -/
theorem formatDate_spec (year month day : Nat) (time : List Char)
    (h1 : 1 ≤ month) (h12 : month ≤ 12) (hd : day < 100) :
    formatDate none = "Invalid Date" ∧
    formatDate (some "") = "Invalid Date" ∧
    formatDate (some (String.mk (isoDate year month day)))
      = (["January", "February", "March", "April", "May", "June", "July", "August",
        "September", "October", "November", "December"].getD (month - 1) "")
        ++ " " ++ toString day ++ ", " ++ String.mk (pad4 year) ∧
    formatDate (some (String.mk (isoDate year month day ++ 'T' :: time)))
      = (["January", "February", "March", "April", "May", "June", "July", "August",
        "September", "October", "November", "December"].getD (month - 1) "")
        ++ " " ++ toString day ++ ", " ++ String.mk (pad4 year) ∧
    formatDate (some "2025-03-07") = "March 7, 2025" ∧
    formatDate (some "2024-01-31") = "January 31, 2024" ∧
    formatDate (some "1999-12-01T08:15:00.000Z") = "December 1, 1999" := by
  refine ⟨rfl, rfl, ?_, ?_, by decide, by decide, by decide⟩
  · have h := formatDate_isoDate year month day [] (Or.inl rfl) h1 h12 hd
    rw [List.append_nil] at h
    exact h
  · exact formatDate_isoDate year month day ('T' :: time) (Or.inr ⟨time, rfl⟩) h1 h12 hd

/-- C28 (instance): 7 March 2025, alone and with a time part. -/
theorem formatDate_spec_witness :
    1 ≤ 3 ∧ 3 ≤ 12 ∧ 7 < 100 ∧
    String.mk (isoDate 2025 3 7) = "2025-03-07" ∧
    String.mk (isoDate 2025 3 7 ++ 'T' :: "10:30:00.000Z".toList)
      = "2025-03-07T10:30:00.000Z" ∧
    (["January", "February", "March", "April", "May", "June", "July", "August",
        "September", "October", "November", "December"].getD (3 - 1) "")
        ++ " " ++ toString 7 ++ ", " ++ String.mk (pad4 2025)
      = "March 7, 2025" ∧
    formatDate (some (String.mk (isoDate 2025 3 7)))
      = (["January", "February", "March", "April", "May", "June", "July", "August",
        "September", "October", "November", "December"].getD (3 - 1) "")
        ++ " " ++ toString 7 ++ ", " ++ String.mk (pad4 2025) ∧
    formatDate (some (String.mk (isoDate 2025 3 7 ++ 'T' :: "10:30:00.000Z".toList)))
      = (["January", "February", "March", "April", "May", "June", "July", "August",
        "September", "October", "November", "December"].getD (3 - 1) "")
        ++ " " ++ toString 7 ++ ", " ++ String.mk (pad4 2025) :=
  ⟨by decide, by decide, by decide, by decide, by decide, by decide,
    (formatDate_spec 2025 3 7 "10:30:00.000Z".toList (by decide) (by decide)
      (by decide)).2.2.1,
    (formatDate_spec 2025 3 7 "10:30:00.000Z".toList (by decide) (by decide)
      (by decide)).2.2.2.1⟩

/-- C30: in `initializeData`, when the favorites endpoint answers `response` and the
lookup answers `books`: if every book has an identifier equal to the `bookId` of some
favorite record, the pairing returns a list that has the length and order of `books`
and whose entries carry as `favoritedId` the identifier of the first record whose
`bookId` matches, and that list is the `favoritedBooks` of the result; if some book has
no such record, the pairing throws and `initializeData` fails as a whole. -/
theorem initializeData_pairing (bGood bBad : InitBackend) (userId : String)
    (response response' : List FavoriteRecord) (books books' : List Book)
    (hresp : bGood.favorites userId = .ok response) (hne : response ≠ [])
    (hbooks : bGood.api.booksByIds (response.map fun fav => fav.bookId) = .ok books)
    (hmatch : ∀ book ∈ books, ∃ fav ∈ response, fav.bookId = book._id)
    (hresp' : bBad.favorites userId = .ok response') (hne' : response' ≠ [])
    (hbooks' : bBad.api.booksByIds (response'.map fun fav => fav.bookId) = .ok books')
    (hmiss : ∃ book ∈ books', ∀ fav ∈ response', fav.bookId ≠ book._id) :
    (∃ paired, pairFavorites response books = .ok paired ∧
      paired.length = books.length ∧
      paired.map (fun r => r.toBook) = books ∧
      (∀ r ∈ paired, ∃ fav,
        response.find? (fun fav => fav.bookId == r._id) = some fav ∧
        r.favoritedId = fav._id) ∧
      ∀ data, initializeData bGood userId = .ok data → data.favoritedBooks = paired) ∧
    (∃ e, pairFavorites response' books' = .error e) ∧
    (∃ e, initializeData bBad userId = .error e) := by
  obtain ⟨paired, hp, hmap, hall⟩ := pairFavorites_ok response books hmatch
  obtain ⟨e, he⟩ := pairFavorites_error response' books' hmiss
  refine ⟨⟨paired, hp, ?_, hmap, hall, ?_⟩, ⟨e, he⟩, ?_⟩
  · rw [← hmap, List.length_map]
  · intro data hdata
    exact initializeData_favoritedBooks bGood userId response books paired hresp hne
      hbooks hp data hdata
  · exact initializeData_error_of_pair_error bBad userId response' books' e hresp' hne'
      hbooks' he

/-- C30 (instance): three favorite records, two of them for sample book 0.  A lookup
that returns sample books 1 and 0 is paired with `f1` and `f0`; a lookup that also
returns sample book 9, which has no record, makes start-up fail. -/
theorem initializeData_pairing_witness :
    (initBackendReturning sampleFavoriteRecords [sampleBook 1, sampleBook 0] []).favorites
      "u1" = .ok sampleFavoriteRecords ∧
    sampleFavoriteRecords ≠ [] ∧
    (∀ book ∈ [sampleBook 1, sampleBook 0],
      ∃ fav ∈ sampleFavoriteRecords, fav.bookId = book._id) ∧
    (∃ book ∈ [sampleBook 1, sampleBook 9],
      ∀ fav ∈ sampleFavoriteRecords, fav.bookId ≠ book._id) ∧
    pairFavorites sampleFavoriteRecords [sampleBook 1, sampleBook 0]
      = .ok [sampleFavorite 1 "f1", sampleFavorite 0 "f0"] ∧
    (∃ data, initializeData
        (initBackendReturning sampleFavoriteRecords [sampleBook 1, sampleBook 0] []) "u1"
      = .ok data) ∧
    ((∃ paired,
        pairFavorites sampleFavoriteRecords [sampleBook 1, sampleBook 0] = .ok paired ∧
        paired.length = [sampleBook 1, sampleBook 0].length ∧
        paired.map (fun r => r.toBook) = [sampleBook 1, sampleBook 0] ∧
        (∀ r ∈ paired, ∃ fav,
          sampleFavoriteRecords.find? (fun fav => fav.bookId == r._id) = some fav ∧
          r.favoritedId = fav._id) ∧
        ∀ data, initializeData
            (initBackendReturning sampleFavoriteRecords [sampleBook 1, sampleBook 0] [])
            "u1" = .ok data → data.favoritedBooks = paired) ∧
      (∃ e, pairFavorites sampleFavoriteRecords [sampleBook 1, sampleBook 9] = .error e) ∧
      (∃ e, initializeData
          (initBackendReturning sampleFavoriteRecords [sampleBook 1, sampleBook 9] [])
          "u1" = .error e)) :=
  ⟨rfl, by decide, by decide, by decide, rfl, ⟨_, rfl⟩,
    initializeData_pairing
      (initBackendReturning sampleFavoriteRecords [sampleBook 1, sampleBook 0] [])
      (initBackendReturning sampleFavoriteRecords [sampleBook 1, sampleBook 9] [])
      "u1" sampleFavoriteRecords sampleFavoriteRecords
      [sampleBook 1, sampleBook 0] [sampleBook 1, sampleBook 9]
      rfl (by decide) rfl (by decide) rfl (by decide) rfl (by decide)⟩

end BookKeeps
